import Mathlib

/-!
Verification of the AgentSight conversation-tracker buffering and flush protocol.

This file gives a shallow embedding of the event-buffering core of the
`agentsight` SDK (`agentsight/client/main_client.py`, together with the helpers
it uses from `agentsight/helpers/conversation_utils.py` and
`agentsight/types.py`), and proves the specification claims about it.

Modelling conventions:
* Python dictionaries holding the per-conversation buffers are modelled as
  association lists keyed by `Option String` (the source keys the buffer map by
  `self.config.conversation_id`, which may be `None`).
* Wall-clock timestamps (`get_iso_timestamp()`) and the random hex digits used
  by `generate_conversation_id()` are passed in as explicit parameters.
* The HTTP transport is an external collaborator; it is modelled as a record of
  functions which additionally receive the index of the call in the flush
  sequence, so that stateful stubs (e.g. "the second call fails") can be
  expressed as pure functions.  Every transport invocation made by the flush
  loop is recorded in a call trace, so that "no network activity happened" and
  "item k was sent with payload p" are stateable.
* Exceptions are modelled with `Except`/an explicit outcome type; the
  `NoDataToSendException` raise paths return `FlushOutcome.noData` together
  with the post-raise tracker state.
-/

namespace AgentSight

/-- The six item kinds appearing as the `'type'` string tag of tracked items
(`'conversation' | 'question' | 'answer' | 'attachments' | 'action' | 'button'`). -/
inductive Kind where
  | conversation
  | question
  | answer
  | attachments
  | action
  | button
deriving DecidableEq, Repr

/-- `agentsight/types.py`: `TokenHandler.__init__` — four cumulative counters,
all starting at 0. -/
structure TokenHandler where
  prompt_llm_token_count : Nat := 0
  completion_llm_token_count : Nat := 0
  total_llm_token_count : Nat := 0
  total_embedding_token_count : Nat := 0
deriving DecidableEq, Repr

/-- The dictionary returned by `ConversationTracker.get_token_usage` when a
token handler exists. -/
structure TokenUsage where
  prompt_tokens : Nat
  completion_tokens : Nat
  total_tokens : Nat
  embedding_tokens : Nat
deriving DecidableEq, Repr

/-- The `data` dictionary of a tracked item.  Only the fields the buffering and
flush core reads or writes are modelled; `none` models an absent key.  The
`conversation` field is `Option (Option String)`: `none` = key absent,
`some none` = key present holding Python `None`, `some (some s)` = key present
holding a server id. -/
structure ItemData where
  conversation_id : Option String := none
  action_name : Option String := none
  token_metadata : Option TokenUsage := none
  mode : Option String := none
  sender : Option String := none
  content : Option String := none
  conversation : Option (Option String) := none
  timestamp_field : Option String := none
deriving DecidableEq, Repr

/-- A buffered tracking item, as built by `_add_tracking_item`:
`{'type': item_type, 'timestamp': get_iso_timestamp(), 'data': data}`. -/
structure TrackedItem where
  type : Kind
  timestamp : String
  data : ItemData
deriving DecidableEq, Repr

/-- The buffer map `self._tracked_data`, an insertion-ordered dictionary from
conversation ids (possibly `None`) to the conversation's `'items'` list. -/
abbrev TrackedMap := List (Option String × List TrackedItem)

/-- Dictionary lookup on a `TrackedMap`. -/
def lookupTracked : TrackedMap → Option String → Option (List TrackedItem)
  | [], _ => none
  | (k, v) :: rest, key => if k = key then some v else lookupTracked rest key

/-- Dictionary assignment `m[key] = v`: updates the existing entry in place,
or appends a new entry. -/
def setTracked : TrackedMap → Option String → List TrackedItem → TrackedMap
  | [], key, v => [(key, v)]
  | (k, w) :: rest, key, v =>
    if k = key then (key, v) :: rest else (k, w) :: setTracked rest key v

/-- Dictionary deletion `del m[key]`. -/
def eraseTracked : TrackedMap → Option String → TrackedMap
  | [], _ => []
  | (k, w) :: rest, key =>
    if k = key then eraseTracked rest key else (k, w) :: eraseTracked rest key

/-- The tracker state observed by the buffering/flush core:
`self.config.conversation_id`, `self._tracked_data` and `self._token_handler`. -/
structure TrackerState where
  conversation_id : Option String := none
  tracked_data : TrackedMap := []
  token_handler : Option TokenHandler := none
deriving DecidableEq, Repr

/-- The sixteen lowercase hex characters of `uuid4().hex`. -/
def hexChars : List Char := "0123456789abcdef".toList

/-- `agentsight/helpers/conversation_utils.py`: `generate_conversation_id` —
`f"conv_{uuid.uuid4().hex[:12]}"`.  The random source is modelled by `ds`, the
first 12 hex digits of the uuid. -/
def generate_conversation_id (ds : Fin 12 → Fin 16) : String :=
  "conv_" ++ String.mk (List.ofFn fun i : Fin 12 => hexChars.getD (ds i).val '0')

/-- Python truthiness of an `Optional[str]`: `None` and `""` are falsy. -/
def truthy : Option String → Bool
  | none => false
  | some s => !(s == "")

/-- `ConversationTracker._get_or_generate_conversation_id`.  Returns the
resolved id together with the updated state (the source mutates
`self.config.conversation_id` when adopting an explicit or generated id). -/
def get_or_generate_conversation_id (st : TrackerState) (explicit : Option String)
    (ds : Fin 12 → Fin 16) : String × TrackerState :=
  if truthy explicit then
    let cid := explicit.getD ""
    (cid, { st with conversation_id := some cid })
  else if truthy st.conversation_id then
    (st.conversation_id.getD "", st)
  else
    let cid := generate_conversation_id ds
    (cid, { st with conversation_id := some cid })

/-- `ConversationTracker._ensure_conversation_storage`. -/
def ensure_conversation_storage (st : TrackerState) (cid : Option String) : TrackerState :=
  match lookupTracked st.tracked_data cid with
  | some _ => st
  | none => { st with tracked_data := st.tracked_data ++ [(cid, [])] }

/-- `ConversationTracker._add_tracking_item`: builds the tracking item with an
append-time timestamp `ts` and appends it to the buffer keyed by the *current*
`self.config.conversation_id`. -/
def add_tracking_item (k : Kind) (d : ItemData) (ts : String) (st : TrackerState) :
    TrackerState :=
  let st1 := ensure_conversation_storage st st.conversation_id
  let items := (lookupTracked st1.tracked_data st1.conversation_id).getD []
  { st1 with
    tracked_data :=
      setTracked st1.tracked_data st1.conversation_id (items ++ [⟨k, ts, d⟩]) }

/-- `ConversationTracker.track_token_usage`: allocates a zeroed handler on
first use, then adds each argument to the matching counter. -/
def track_token_usage (p c t e : Nat) (st : TrackerState) : TrackerState :=
  let h := st.token_handler.getD {}
  { st with
    token_handler := some
      { prompt_llm_token_count := h.prompt_llm_token_count + p
        completion_llm_token_count := h.completion_llm_token_count + c
        total_llm_token_count := h.total_llm_token_count + t
        total_embedding_token_count := h.total_embedding_token_count + e } }

/-- `ConversationTracker.get_token_usage`: the four counters when a handler
exists; `none` models the `{}` returned when `self._token_handler is None`. -/
def get_token_usage (st : TrackerState) : Option TokenUsage :=
  st.token_handler.map fun h =>
    { prompt_tokens := h.prompt_llm_token_count
      completion_tokens := h.completion_llm_token_count
      total_tokens := h.total_llm_token_count
      embedding_tokens := h.total_embedding_token_count }

/-- The synthetic token-usage action item built by
`ConversationTracker._add_token_usage` (timestamped at splice time). -/
def token_usage_item (st : TrackerState) (ts : String) : TrackedItem :=
  { type := Kind.action
    timestamp := ts
    data :=
      { conversation_id := st.conversation_id
        action_name := some "token_usage"
        token_metadata := get_token_usage st } }

/-- The splice rule of `_add_token_usage`: with ≤ 1 items append at the end,
otherwise Python `items.insert(-1, item)`, i.e. insert at position `len - 1`
(immediately before the last item). -/
def splice_token (tok : TrackedItem) (items : List TrackedItem) : List TrackedItem :=
  if items.length ≤ 1 then items ++ [tok]
  else items.take (items.length - 1) ++ tok :: items.drop (items.length - 1)

/-- `ConversationTracker._add_token_usage`.  The source only calls this after
checking that the entry exists; the absent-entry branch is modelled as the
identity. -/
def add_token_usage (cid : String) (ts : String) (st : TrackerState) : TrackerState :=
  match lookupTracked st.tracked_data (some cid) with
  | none => st
  | some items =>
    { st with
      tracked_data :=
        setTracked st.tracked_data (some cid)
          (splice_token (token_usage_item st ts) items) }

/-- A transport response, modelling the JSON dictionary returned by the HTTP
client; `id` models the optional `'id'` key read by the conversation branch. -/
structure Response where
  id : Option String := none
  body : String := ""
deriving DecidableEq, Repr

/-- The external Transport collaborator (`HTTPClient.send_payload` /
`HTTPClient.send_form_data_payload`).  Each function receives the index of the
call within the flush loop as its first argument, so that stateful stubs can
be expressed as pure functions; `Except.error msg` models a raised exception
whose `str()` is `msg`. -/
structure Transport where
  sendPayload : Nat → String → ItemData → Except String Response
  sendFormDataPayload : Nat → ItemData → Option String → String → Except String Response

/-- A record of one transport invocation made by the flush loop: which item of
the flushed sequence caused it, which endpoint was used, and the payload that
was passed.  For form-data calls, `formConversation` is the server-conversation
id passed as a separate argument. -/
structure TransportCall where
  itemIndex : Nat
  endpoint : String
  isFormData : Bool := false
  data : ItemData
  formConversation : Option String := none
deriving DecidableEq, Repr

/-- One element of `responses['items']`. -/
structure ItemResult where
  index : Nat
  type : Kind
  timestamp : String
  success : Bool
  response : Option Response := none
  error : Option String := none
deriving DecidableEq, Repr

/-- `responses['summary']`. -/
structure Summary where
  questions : Nat := 0
  answers : Nat := 0
  attachments : Nat := 0
  actions : Nat := 0
  buttons : Nat := 0
  errors : Nat := 0
deriving DecidableEq, Repr

/-- The dictionary returned by `send_tracked_data`. -/
structure FlushReport where
  items : List ItemResult := []
  summary : Summary := {}
deriving DecidableEq, Repr

/-- Result of a `send_tracked_data` call: either the returned report or a
raised `NoDataToSendException` with its message. -/
inductive FlushOutcome where
  | report (r : FlushReport)
  | noData (msg : String)
deriving DecidableEq, Repr

/-- Whether a flush outcome is a returned report (no exception raised). -/
def FlushOutcome.isReport : FlushOutcome → Bool
  | .report _ => true
  | .noData _ => false

/-- The in-loop mutation of the item payload (lines 438–441 of
`main_client.py`): `data['timestamp'] = timestamp`, and for every
non-conversation item `data['conversation'] = conversation_id` (the
server-assigned id captured so far, initially `None`). -/
def prepared_data (convId : Option String) (item : TrackedItem) : ItemData :=
  let d := { item.data with timestamp_field := some item.timestamp }
  if item.type = Kind.conversation then d else { d with conversation := some convId }

/-- The accumulating state of the flush loop: the `conversation_id` local
variable (server-assigned id), the `responses` dictionary, and the trace of
transport calls made so far. -/
structure LoopState where
  conversation : Option String := none
  results : List ItemResult := []
  summary : Summary := {}
  calls : List TransportCall := []
deriving Repr

/-- The per-kind dispatch of loop iteration `i` (the `try` body, lines
443–466): performs the transport call for the item and returns the outcome,
the updated `conversation_id` variable, and the transport calls made.

For a `conversation` item a missing `'id'` key in a successful response models
the `KeyError` raised by `response['id']` (caught by the per-item handler,
leaving `conversation_id` unchanged); an `attachments` item without a
stored `'mode'` key models the `KeyError` raised by `data['mode']` before any
transport call is made. -/
def dispatch_item (tp : Transport) (i : Nat) (convId : Option String)
    (item : TrackedItem) : Except String Response × Option String × List TransportCall :=
  let d := prepared_data convId item
  match item.type with
  | Kind.conversation =>
    let call : TransportCall := { itemIndex := i, endpoint := "conversation", data := d }
    match tp.sendPayload i "conversation" d with
    | Except.ok r =>
      match r.id with
      | some sid => (Except.ok r, some sid, [call])
      | none => (Except.error "'id'", convId, [call])
    | Except.error e => (Except.error e, convId, [call])
  | Kind.question =>
    (tp.sendPayload i "question" d, convId,
      [{ itemIndex := i, endpoint := "question", data := d }])
  | Kind.answer =>
    (tp.sendPayload i "answer" d, convId,
      [{ itemIndex := i, endpoint := "answer", data := d }])
  | Kind.attachments =>
    match d.mode with
    | some m =>
      if m = "base64" then
        (tp.sendPayload i "attachments" d, convId,
          [{ itemIndex := i, endpoint := "attachments", data := d }])
      else
        (tp.sendFormDataPayload i d convId item.timestamp, convId,
          [{ itemIndex := i, endpoint := "form_data", isFormData := true, data := d,
             formConversation := convId }])
    | none => (Except.error "'mode'", convId, [])
  | Kind.action =>
    (tp.sendPayload i "action" d, convId,
      [{ itemIndex := i, endpoint := "action", data := d }])
  | Kind.button =>
    (tp.sendPayload i "button" d, convId,
      [{ itemIndex := i, endpoint := "button", data := d }])

/-- The per-kind `summary` counter incremented on a successful send. -/
def bump_summary (sm : Summary) : Kind → Summary
  | Kind.conversation => sm
  | Kind.question => { sm with questions := sm.questions + 1 }
  | Kind.answer => { sm with answers := sm.answers + 1 }
  | Kind.attachments => { sm with attachments := sm.attachments + 1 }
  | Kind.action => { sm with actions := sm.actions + 1 }
  | Kind.button => { sm with buttons := sm.buttons + 1 }

/-- One iteration of the flush loop (lines 434–489): dispatch the item, then
record either the success result (bumping the per-kind counter) or the error
result (bumping `errors`); the loop never aborts. -/
def send_loop_step (tp : Transport) (i : Nat) (item : TrackedItem) (s : LoopState) :
    LoopState :=
  match dispatch_item tp i s.conversation item with
  | (Except.ok r, newConv, cs) =>
    { conversation := newConv
      results := s.results ++
        [{ index := i, type := item.type, timestamp := item.timestamp,
           success := true, response := some r }]
      summary := bump_summary s.summary item.type
      calls := s.calls ++ cs }
  | (Except.error e, newConv, cs) =>
    { conversation := newConv
      results := s.results ++
        [{ index := i, type := item.type, timestamp := item.timestamp,
           success := false, error := some e }]
      summary := { s.summary with errors := s.summary.errors + 1 }
      calls := s.calls ++ cs }

/-- The flush loop from index `i` onwards. -/
def send_loop_from (tp : Transport) (i : Nat) (items : List TrackedItem)
    (s : LoopState) : LoopState :=
  match items with
  | [] => s
  | item :: rest => send_loop_from tp (i + 1) rest (send_loop_step tp i item s)

/-- The whole flush loop (`for i, item in enumerate(items_to_send)`). -/
def send_loop (tp : Transport) (items : List TrackedItem) : LoopState :=
  send_loop_from tp 0 items {}

/-- The `NoDataToSendException` message used by `send_tracked_data`. -/
def no_data_msg (cid : String) : String :=
  "No tracked data found for conversation: " ++ cid

/-- `ConversationTracker.send_tracked_data` (lines 391–492):
resolve the conversation id; inside the lock, raise `NoDataToSend` if the id
has no buffer entry, splice the token-usage item when a token handler exists,
detach the item list and delete the buffer entry; raise `NoDataToSend` if the
detached list is empty; then run the send loop outside the lock and return the
report.  The result is the outcome, the post-call tracker state, and the trace
of transport calls made. -/
def send_tracked_data (tp : Transport) (ds : Fin 12 → Fin 16) (spliceTs : String)
    (st : TrackerState) : FlushOutcome × TrackerState × List TransportCall :=
  let res := get_or_generate_conversation_id st none ds
  let convId := res.1
  let st1 := res.2
  match lookupTracked st1.tracked_data (some convId) with
  | none => (FlushOutcome.noData (no_data_msg convId), st1, [])
  | some _ =>
    let st2 := if st1.token_handler.isSome then add_token_usage convId spliceTs st1 else st1
    let items := (lookupTracked st2.tracked_data (some convId)).getD []
    let st3 := { st2 with tracked_data := eraseTracked st2.tracked_data (some convId) }
    if items.isEmpty then (FlushOutcome.noData (no_data_msg convId), st3, [])
    else
      let ls := send_loop tp items
      (FlushOutcome.report { items := ls.results, summary := ls.summary }, st3, ls.calls)

/-! ## Concrete example states and stubs, and derived operation helpers -/

/-- The sequence of items a flush of conversation `cid` will detach and send:
the buffered items, with the synthetic token-usage item spliced in when a
token handler exists. -/
def flushed_items (spliceTs : String) (st : TrackerState) (cid : String) :
    List TrackedItem :=
  let L := (lookupTracked st.tracked_data (some cid)).getD []
  if st.token_handler.isSome then splice_token (token_usage_item st spliceTs) L else L

/-- A tracker state with a configured conversation id, an empty buffer map and
a given token handler. -/
def fresh_tracker (cid : String) (th : Option TokenHandler) : TrackerState :=
  { conversation_id := some cid, tracked_data := [], token_handler := th }

/-- A sequence of `track_*` calls: each public tracking method ends in
`_add_tracking_item` with its kind, its data and an append-time timestamp.
Each list element is `(kind, timestamp, data)`. -/
def track_many (tr : List (Kind × String × ItemData)) (st : TrackerState) :
    TrackerState :=
  tr.foldl (fun s x => add_tracking_item x.1 x.2.2 x.2.1 s) st

/-- The buffered items produced by a sequence of `track_*` calls, in append
order. -/
def appended_items (tr : List (Kind × String × ItemData)) : List TrackedItem :=
  tr.map fun x => ⟨x.1, x.2.1, x.2.2⟩

/-- A transport stub all of whose calls succeed, returning a response carrying
a server id. -/
def okTransport : Transport :=
  { sendPayload := fun _ _ _ => Except.ok { id := some "srv1", body := "ok" }
    sendFormDataPayload := fun _ _ _ _ => Except.ok { id := none, body := "ok" } }

/-- A fixed hex-digit source for generated conversation ids. -/
def zeroHex : Fin 12 → Fin 16 := fun _ => 0

/-- A one-question buffered state used as a concrete example. -/
def sample_state : TrackerState :=
  { conversation_id := some "c1"
    tracked_data := [(some "c1", [⟨Kind.question, "t1", { content := some "hi" }⟩])]
    token_handler := none }

/-- `sample_state` with a non-zero token accumulator. -/
def sample_state_tok : TrackerState :=
  { sample_state with
    token_handler := some
      { prompt_llm_token_count := 5, completion_llm_token_count := 6,
        total_llm_token_count := 11, total_embedding_token_count := 0 } }

/-- A sequence of `track_token_usage` calls, each with its four arguments. -/
def track_token_calls (calls : List (Nat × Nat × Nat × Nat)) (st : TrackerState) :
    TrackerState :=
  calls.foldl (fun s q => track_token_usage q.1 q.2.1 q.2.2.1 q.2.2.2 s) st

/-- The stored `'mode'` key exists on attachments items (true of every item the
tracker builds: `track_attachments` always stores a mode). -/
def modeOk (item : TrackedItem) : Prop :=
  item.type = Kind.attachments → item.data.mode.isSome = true

instance (item : TrackedItem) : Decidable (modeOk item) := by
  unfold modeOk
  infer_instance

/-- A three-item buffered state used as a concrete example. -/
def three_item_state : TrackerState :=
  { conversation_id := some "c1"
    tracked_data := [(some "c1",
      [⟨Kind.question, "t1", { content := some "q" }⟩,
       ⟨Kind.answer, "t2", { content := some "a" }⟩,
       ⟨Kind.action, "t3", { action_name := some "act" }⟩])]
    token_handler := none }

/-- A transport stub that fails exactly on the second call (call index 1). -/
def fail_second_transport : Transport :=
  { sendPayload := fun m _ _ =>
      if m = 1 then Except.error "boom"
      else Except.ok { id := some "srv1", body := "ok" }
    sendFormDataPayload := fun m _ _ _ =>
      if m = 1 then Except.error "boom"
      else Except.ok { id := none, body := "ok" } }

/-- A two-item buffered state with a non-zero token accumulator. -/
def two_item_tok_state : TrackerState :=
  { conversation_id := some "c1"
    tracked_data := [(some "c1",
      [⟨Kind.question, "t1", { content := some "q" }⟩,
       ⟨Kind.answer, "t2", { content := some "a" }⟩])]
    token_handler := some
      { prompt_llm_token_count := 5, completion_llm_token_count := 6,
        total_llm_token_count := 11, total_embedding_token_count := 0 } }

/-- The two-conversation-item flush used to refute the claim as stated. -/
def two_conv_items : List TrackedItem :=
  [⟨Kind.conversation, "t1", { conversation_id := some "c1" }⟩,
   ⟨Kind.conversation, "t2", { conversation_id := some "c1" }⟩]

/-! ## Dictionary lemmas -/

theorem lookupTracked_set_self (m : TrackedMap) (k : Option String)
    (v : List TrackedItem) : lookupTracked (setTracked m k v) k = some v := by
  induction m with
  | nil => simp [setTracked, lookupTracked]
  | cons hd tl ih =>
    obtain ⟨k', w⟩ := hd
    by_cases h : k' = k
    · simp [setTracked, h, lookupTracked]
    · simp [setTracked, h, lookupTracked, ih]

theorem lookupTracked_erase_self (m : TrackedMap) (k : Option String) :
    lookupTracked (eraseTracked m k) k = none := by
  induction m with
  | nil => simp [eraseTracked, lookupTracked]
  | cons hd tl ih =>
    obtain ⟨k', w⟩ := hd
    by_cases h : k' = k
    · simp [eraseTracked, h, ih]
    · simp [eraseTracked, h, lookupTracked, ih]

theorem eraseTracked_set (m : TrackedMap) (k : Option String) (v : List TrackedItem) :
    eraseTracked (setTracked m k v) k = eraseTracked m k := by
  induction m with
  | nil => simp [setTracked, eraseTracked]
  | cons hd tl ih =>
    obtain ⟨k', w⟩ := hd
    by_cases h : k' = k
    · simp [setTracked, h, eraseTracked]
    · simp [setTracked, h, eraseTracked, ih]

theorem lookupTracked_cons (k' : Option String) (w : List TrackedItem)
    (rest : TrackedMap) (key : Option String) :
    lookupTracked ((k', w) :: rest) key =
      if k' = key then some w else lookupTracked rest key := rfl

theorem lookupTracked_append (m l : TrackedMap) (k : Option String)
    (h : lookupTracked m k = none) :
    lookupTracked (m ++ l) k = lookupTracked l k := by
  induction m with
  | nil => simp
  | cons hd tl ih =>
    obtain ⟨k', w⟩ := hd
    rw [lookupTracked_cons] at h
    by_cases hk : k' = k
    · simp [hk] at h
    · rw [if_neg hk] at h
      rw [List.cons_append, lookupTracked_cons, if_neg hk]
      exact ih h

/-! ## Conversation-id resolution lemmas -/

theorem generate_conversation_id_ne_empty (ds : Fin 12 → Fin 16) :
    generate_conversation_id ds ≠ "" := by
  intro h
  have hlen := congrArg String.length h
  rw [generate_conversation_id, String.length_append] at hlen
  simp at hlen

/-- The resolved id is adopted as (or already equals) the current configured id. -/
theorem gog_conversation_id (st : TrackerState) (ds : Fin 12 → Fin 16) :
    (get_or_generate_conversation_id st none ds).2.conversation_id =
      some (get_or_generate_conversation_id st none ds).1 := by
  unfold get_or_generate_conversation_id
  cases hc : st.conversation_id with
  | none => simp [truthy, hc]
  | some s =>
    by_cases hs : s = ""
    · simp [truthy, hc, hs]
    · simp [truthy, hc, hs]

theorem gog_tracked_data (st : TrackerState) (ds : Fin 12 → Fin 16) :
    (get_or_generate_conversation_id st none ds).2.tracked_data = st.tracked_data := by
  unfold get_or_generate_conversation_id
  cases hc : st.conversation_id with
  | none => simp [truthy, hc]
  | some s =>
    by_cases hs : s = ""
    · simp [truthy, hc, hs]
    · simp [truthy, hc, hs]

theorem gog_token_handler (st : TrackerState) (ds : Fin 12 → Fin 16) :
    (get_or_generate_conversation_id st none ds).2.token_handler = st.token_handler := by
  unfold get_or_generate_conversation_id
  cases hc : st.conversation_id with
  | none => simp [truthy, hc]
  | some s =>
    by_cases hs : s = ""
    · simp [truthy, hc, hs]
    · simp [truthy, hc, hs]

theorem gog_ne_empty (st : TrackerState) (ds : Fin 12 → Fin 16) :
    (get_or_generate_conversation_id st none ds).1 ≠ "" := by
  unfold get_or_generate_conversation_id
  cases hc : st.conversation_id with
  | none => simpa [truthy, hc] using generate_conversation_id_ne_empty ds
  | some s =>
    by_cases hs : s = ""
    · simpa [truthy, hc, hs] using generate_conversation_id_ne_empty ds
    · simp [truthy, hc, hs]

/-- With a non-empty configured id and no explicit argument, resolution reuses
the configured id and leaves the state unchanged. -/
theorem gog_of_config (st : TrackerState) (cid : String) (ds : Fin 12 → Fin 16)
    (hc : st.conversation_id = some cid) (hne : cid ≠ "") :
    get_or_generate_conversation_id st none ds = (cid, st) := by
  unfold get_or_generate_conversation_id
  simp [truthy, hc, hne]

/-! ## Token-splice and flush decomposition lemmas -/

theorem add_token_usage_conversation_id (cid ts : String) (st : TrackerState) :
    (add_token_usage cid ts st).conversation_id = st.conversation_id := by
  unfold add_token_usage
  cases lookupTracked st.tracked_data (some cid) <;> simp

theorem add_token_usage_token_handler (cid ts : String) (st : TrackerState) :
    (add_token_usage cid ts st).token_handler = st.token_handler := by
  unfold add_token_usage
  cases lookupTracked st.tracked_data (some cid) <;> simp

theorem add_token_usage_eq (cid ts : String) (st : TrackerState)
    (L : List TrackedItem) (hb : lookupTracked st.tracked_data (some cid) = some L) :
    add_token_usage cid ts st =
      { st with
        tracked_data :=
          setTracked st.tracked_data (some cid)
            (splice_token (token_usage_item st ts) L) } := by
  unfold add_token_usage
  rw [hb]

theorem splice_token_length (tok : TrackedItem) (items : List TrackedItem) :
    (splice_token tok items).length = items.length + 1 := by
  unfold splice_token
  by_cases h : items.length ≤ 1
  · simp [h]
  · rw [if_neg h]
    simp only [List.length_append, List.length_take, List.length_cons, List.length_drop]
    omega

/-- Decomposition of `send_tracked_data` on a state whose configured id `cid`
is non-empty and has a buffer entry whose flushed sequence is non-empty: the
flush detaches exactly `flushed_items`, deletes the buffer entry, runs the
send loop on them and returns its report. -/
theorem send_tracked_data_eq (tp : Transport) (ds : Fin 12 → Fin 16) (ts : String)
    (st : TrackerState) (cid : String)
    (hc : st.conversation_id = some cid) (hne : cid ≠ "")
    (L : List TrackedItem) (hb : lookupTracked st.tracked_data (some cid) = some L)
    (hnonempty : flushed_items ts st cid ≠ []) :
    send_tracked_data tp ds ts st =
      (FlushOutcome.report
        { items := (send_loop tp (flushed_items ts st cid)).results
          summary := (send_loop tp (flushed_items ts st cid)).summary },
       { st with tracked_data := eraseTracked st.tracked_data (some cid) },
       (send_loop tp (flushed_items ts st cid)).calls) := by
  have hgog := gog_of_config st cid ds hc hne
  unfold send_tracked_data
  rw [hgog]
  simp only [hb]
  cases hh : st.token_handler with
  | none =>
    have hfl : flushed_items ts st cid = L := by
      unfold flushed_items
      simp [hb, hh]
    simp only [hh, Option.isSome_none, Bool.false_eq_true, if_false, hb, Option.getD_some]
    rw [hfl] at hnonempty ⊢
    rw [if_neg (by simpa [List.isEmpty_iff] using hnonempty)]
  | some h =>
    have hfl : flushed_items ts st cid = splice_token (token_usage_item st ts) L := by
      unfold flushed_items
      simp [hb, hh]
    have hadd := add_token_usage_eq cid ts st L hb
    simp only [hh, Option.isSome_some, if_true, hadd, lookupTracked_set_self,
      Option.getD_some, eraseTracked_set]
    rw [hfl] at hnonempty ⊢
    rw [if_neg (by simpa [List.isEmpty_iff] using hnonempty)]

/-- When the resolved conversation id has no buffer entry, the flush raises
`NoDataToSend` with no transport call; the buffer map and token handler are
untouched (only the configured id may have been adopted by resolution). -/
theorem send_tracked_data_no_entry (tp : Transport) (ds : Fin 12 → Fin 16)
    (ts : String) (st : TrackerState)
    (hb : lookupTracked st.tracked_data
      (some (get_or_generate_conversation_id st none ds).1) = none) :
    send_tracked_data tp ds ts st =
      (FlushOutcome.noData (no_data_msg (get_or_generate_conversation_id st none ds).1),
       (get_or_generate_conversation_id st none ds).2, []) := by
  unfold send_tracked_data
  simp only [gog_tracked_data st ds, hb]

/-! ## Send-loop shape lemmas -/

theorem send_loop_step_results (tp : Transport) (i : Nat) (item : TrackedItem)
    (s : LoopState) :
    ∃ res : ItemResult,
      (send_loop_step tp i item s).results = s.results ++ [res] ∧
      res.index = i ∧ res.type = item.type ∧ res.timestamp = item.timestamp := by
  unfold send_loop_step
  rcases hd : dispatch_item tp i s.conversation item with ⟨ex, nc, cs⟩
  cases ex with
  | ok r => exact ⟨_, rfl, rfl, rfl, rfl⟩
  | error e => exact ⟨_, rfl, rfl, rfl, rfl⟩

theorem send_loop_from_results_extend (tp : Transport) :
    ∀ (items : List TrackedItem) (i : Nat) (s : LoopState),
      ∃ tail, (send_loop_from tp i items s).results = s.results ++ tail := by
  intro items
  induction items with
  | nil => intro i s; exact ⟨[], by simp [send_loop_from]⟩
  | cons hd rest ih =>
    intro i s
    rw [send_loop_from]
    obtain ⟨res, hres, _, _, _⟩ := send_loop_step_results tp i hd s
    obtain ⟨tail, htail⟩ := ih (i + 1) (send_loop_step tp i hd s)
    exact ⟨res :: tail, by rw [htail, hres]; simp⟩

theorem send_loop_from_length (tp : Transport) :
    ∀ (items : List TrackedItem) (i : Nat) (s : LoopState),
      (send_loop_from tp i items s).results.length =
        s.results.length + items.length := by
  intro items
  induction items with
  | nil => intro i s; simp [send_loop_from]
  | cons hd rest ih =>
    intro i s
    rw [send_loop_from, ih]
    obtain ⟨res, hres, _, _, _⟩ := send_loop_step_results tp i hd s
    rw [hres]
    simp
    omega

theorem send_loop_from_get (tp : Transport) :
    ∀ (items : List TrackedItem) (i : Nat) (s : LoopState) (k : Nat)
      (item : TrackedItem), items.get? k = some item →
      ∃ res, (send_loop_from tp i items s).results.get? (s.results.length + k) =
          some res ∧
        res.index = i + k ∧ res.type = item.type ∧ res.timestamp = item.timestamp := by
  intro items
  induction items with
  | nil => intro i s k item h; simp at h
  | cons hd rest ih =>
    intro i s k item h
    rw [send_loop_from]
    obtain ⟨res, hres, hidx, hty, hts⟩ := send_loop_step_results tp i hd s
    cases k with
    | zero =>
      simp only [List.get?_cons_zero, Option.some.injEq] at h
      subst h
      obtain ⟨tail, htail⟩ := send_loop_from_results_extend tp rest (i + 1)
        (send_loop_step tp i hd s)
      refine ⟨res, ?_, by omega, hty, hts⟩
      rw [htail, hres, List.append_assoc]
      rw [List.get?_append_right (by omega)]
      simp
    | succ k =>
      simp only [List.get?_cons_succ] at h
      obtain ⟨res2, hget, hidx2, hty2, hts2⟩ := ih (i + 1) (send_loop_step tp i hd s) k item h
      refine ⟨res2, ?_, by omega, hty2, hts2⟩
      rw [hres] at hget
      simpa [List.length_append, Nat.add_assoc, Nat.add_comm 1 k] using hget

/-! ## Tracking-append lemmas -/

theorem add_tracking_item_cfg (k : Kind) (d : ItemData) (ts : String)
    (st : TrackerState) :
    (add_tracking_item k d ts st).conversation_id = st.conversation_id ∧
    (add_tracking_item k d ts st).token_handler = st.token_handler := by
  unfold add_tracking_item ensure_conversation_storage
  cases lookupTracked st.tracked_data st.conversation_id <;> simp

theorem add_tracking_item_tracked (k : Kind) (d : ItemData) (ts : String)
    (st : TrackerState) :
    lookupTracked (add_tracking_item k d ts st).tracked_data st.conversation_id =
      some (((lookupTracked st.tracked_data st.conversation_id).getD []) ++
        [⟨k, ts, d⟩]) := by
  unfold add_tracking_item ensure_conversation_storage
  cases hb : lookupTracked st.tracked_data st.conversation_id with
  | some L => simp [hb, lookupTracked_set_self]
  | none =>
    have h1 : lookupTracked (st.tracked_data ++ [(st.conversation_id, [])])
        st.conversation_id = some [] := by
      rw [lookupTracked_append _ _ _ hb]
      simp [lookupTracked]
    simp [hb, h1, lookupTracked_set_self]

theorem track_many_cfg (tr : List (Kind × String × ItemData)) :
    ∀ st : TrackerState,
      (track_many tr st).conversation_id = st.conversation_id ∧
      (track_many tr st).token_handler = st.token_handler := by
  induction tr with
  | nil => intro st; simp [track_many]
  | cons x rest ih =>
    intro st
    have h1 := add_tracking_item_cfg x.1 x.2.2 x.2.1 st
    have h2 := ih (add_tracking_item x.1 x.2.2 x.2.1 st)
    unfold track_many at h2 ⊢
    rw [List.foldl_cons]
    exact ⟨h2.1.trans h1.1, h2.2.trans h1.2⟩

theorem track_many_tracked_of_some (tr : List (Kind × String × ItemData)) :
    ∀ (st : TrackerState) (L : List TrackedItem),
      lookupTracked st.tracked_data st.conversation_id = some L →
      lookupTracked (track_many tr st).tracked_data st.conversation_id =
        some (L ++ appended_items tr) := by
  induction tr with
  | nil => intro st L h; simpa [track_many, appended_items] using h
  | cons x rest ih =>
    intro st L h
    unfold track_many
    rw [List.foldl_cons]
    have hadd := add_tracking_item_tracked x.1 x.2.2 x.2.1 st
    rw [h, Option.getD_some] at hadd
    have hcfg := (add_tracking_item_cfg x.1 x.2.2 x.2.1 st).1
    have hrest := ih (add_tracking_item x.1 x.2.2 x.2.1 st)
      (L ++ [⟨x.1, x.2.1, x.2.2⟩]) (by rw [hcfg]; exact hadd)
    rw [hcfg] at hrest
    unfold track_many at hrest
    rw [hrest]
    simp [appended_items]

theorem track_many_tracked_fresh (x : Kind × String × ItemData)
    (rest : List (Kind × String × ItemData)) (st : TrackerState)
    (hb : lookupTracked st.tracked_data st.conversation_id = none) :
    lookupTracked (track_many (x :: rest) st).tracked_data st.conversation_id =
      some (appended_items (x :: rest)) := by
  unfold track_many
  rw [List.foldl_cons]
  have hadd := add_tracking_item_tracked x.1 x.2.2 x.2.1 st
  rw [hb] at hadd
  simp only [Option.getD_none, List.nil_append] at hadd
  have hcfg := (add_tracking_item_cfg x.1 x.2.2 x.2.1 st).1
  have hrest := track_many_tracked_of_some rest (add_tracking_item x.1 x.2.2 x.2.1 st)
    [⟨x.1, x.2.1, x.2.2⟩] (by rw [hcfg]; exact hadd)
  rw [hcfg] at hrest
  unfold track_many at hrest
  rw [hrest]
  simp [appended_items]

theorem splice_token_ne_nil (tok : TrackedItem) (items : List TrackedItem) :
    splice_token tok items ≠ [] := by
  have hl := splice_token_length tok items
  intro h
  rw [h] at hl
  simp at hl

/-! ## Claim C1 -/

/-- **C1** (order preservation): for every sequence of tracked items for one
conversation followed by `send_tracked_data` with a transport stub that
succeeds, the flushed sequence is exactly the tracked items in append order
(with the synthetic token-usage item spliced at its specified position when a
token handler exists), the report contains exactly one item result per flushed
item, and the `i`-th result carries index `i`, the `i`-th flushed item's kind,
and that item's append-time timestamp. -/
theorem send_tracked_data_order_preservation
    (cid : String) (hcid : cid ≠ "") (th : Option TokenHandler)
    (tr : List (Kind × String × ItemData)) (htr : tr ≠ [])
    (tp : Transport) (ds : Fin 12 → Fin 16) (spliceTs : String)
    (hok : ∀ i ep d, ∃ r, tp.sendPayload i ep d = Except.ok r ∧ r.id ≠ none)
    (hokf : ∀ i d c t, ∃ r, tp.sendFormDataPayload i d c t = Except.ok r) :
    flushed_items spliceTs (track_many tr (fresh_tracker cid th)) cid =
      (if th.isSome then
        splice_token (token_usage_item (track_many tr (fresh_tracker cid th)) spliceTs)
          (appended_items tr)
       else appended_items tr) ∧
    ∃ r : FlushReport,
      (send_tracked_data tp ds spliceTs (track_many tr (fresh_tracker cid th))).1 =
        FlushOutcome.report r ∧
      r.items.length =
        (flushed_items spliceTs (track_many tr (fresh_tracker cid th)) cid).length ∧
      ∀ k item,
        (flushed_items spliceTs (track_many tr (fresh_tracker cid th)) cid).get? k =
          some item →
        ∃ res, r.items.get? k = some res ∧ res.index = k ∧
          res.type = item.type ∧ res.timestamp = item.timestamp := by
  obtain ⟨x, rest, rfl⟩ : ∃ x rest, tr = x :: rest := by
    cases tr with
    | nil => exact absurd rfl htr
    | cons x rest => exact ⟨x, rest, rfl⟩
  set stN := track_many (x :: rest) (fresh_tracker cid th) with hstN
  have hcfg0 : (fresh_tracker cid th).conversation_id = some cid := rfl
  have hcfg : stN.conversation_id = some cid := by
    rw [hstN, (track_many_cfg _ _).1, hcfg0]
  have hth : stN.token_handler = th := by
    rw [hstN, (track_many_cfg _ _).2]
    rfl
  have hbase : lookupTracked stN.tracked_data (some cid) =
      some (appended_items (x :: rest)) := by
    have h := track_many_tracked_fresh x rest (fresh_tracker cid th) rfl
    rw [hcfg0] at h
    exact h
  have hfl : flushed_items spliceTs stN cid =
      (if th.isSome then
        splice_token (token_usage_item stN spliceTs) (appended_items (x :: rest))
       else appended_items (x :: rest)) := by
    unfold flushed_items
    rw [hbase, hth]
    simp
  have hflne : flushed_items spliceTs stN cid ≠ [] := by
    rw [hfl]
    cases th with
    | none => simp [appended_items]
    | some h => simpa using splice_token_ne_nil _ _
  have heq := send_tracked_data_eq tp ds spliceTs stN cid hcfg hcid _ hbase hflne
  rw [heq]
  refine ⟨hfl, ⟨_, rfl, ?_, ?_⟩⟩
  · have hlen := send_loop_from_length tp (flushed_items spliceTs stN cid) 0 {}
    simpa [send_loop] using hlen
  · intro k item hk
    obtain ⟨res, hget, hidx, hty, hts⟩ :=
      send_loop_from_get tp (flushed_items spliceTs stN cid) 0 {} k item hk
    refine ⟨res, ?_, by omega, hty, hts⟩
    simpa [send_loop] using hget

/-! ## Claim C2 -/

/-- **C2** (token splice position): when a token accumulator exists at flush
time, exactly one synthetic item of kind `action` with
`data.action_name = "token_usage"` and `data.metadata` equal to the
accumulator snapshot is spliced into the conversation's buffered sequence
before it is detached: appended at the end when the buffer holds ≤ 1 items,
inserted at position `length − 1` when it holds ≥ 2 items, so the
pre-existing last item remains the last item flushed. -/
theorem token_usage_splice_position
    (st : TrackerState) (cid ts : String) (h : TokenHandler) (tp : Transport)
    (ds : Fin 12 → Fin 16)
    (hth : st.token_handler = some h)
    (hc : st.conversation_id = some cid) (hne : cid ≠ "")
    (L : List TrackedItem) (hb : lookupTracked st.tracked_data (some cid) = some L) :
    (token_usage_item st ts).type = Kind.action ∧
    (token_usage_item st ts).data.action_name = some "token_usage" ∧
    (token_usage_item st ts).data.token_metadata = get_token_usage st ∧
    lookupTracked (add_token_usage cid ts st).tracked_data (some cid) =
      some (splice_token (token_usage_item st ts) L) ∧
    (splice_token (token_usage_item st ts) L).length = L.length + 1 ∧
    (L.length ≤ 1 →
      splice_token (token_usage_item st ts) L = L ++ [token_usage_item st ts]) ∧
    (2 ≤ L.length →
      (splice_token (token_usage_item st ts) L).get? (L.length - 1) =
        some (token_usage_item st ts) ∧
      (splice_token (token_usage_item st ts) L).getLast? = L.getLast?) ∧
    ∃ r : FlushReport,
      (send_tracked_data tp ds ts st).1 = FlushOutcome.report r ∧
      r.items.length = L.length + 1 ∧
      ∀ lastIt, L.getLast? = some lastIt → 2 ≤ L.length →
        ∃ res, r.items.get? L.length = some res ∧
          res.type = lastIt.type ∧ res.timestamp = lastIt.timestamp := by
  have hsetlookup :
      lookupTracked (add_token_usage cid ts st).tracked_data (some cid) =
        some (splice_token (token_usage_item st ts) L) := by
    rw [add_token_usage_eq cid ts st L hb]
    exact lookupTracked_set_self _ _ _
  have hlen := splice_token_length (token_usage_item st ts) L
  have happend : L.length ≤ 1 →
      splice_token (token_usage_item st ts) L = L ++ [token_usage_item st ts] := by
    intro hle
    unfold splice_token
    rw [if_pos hle]
  have hsp_at_len : 2 ≤ L.length →
      (splice_token (token_usage_item st ts) L)[L.length]? = L[L.length - 1]? := by
    intro h2
    have hsp : splice_token (token_usage_item st ts) L =
        L.take (L.length - 1) ++
          token_usage_item st ts :: L.drop (L.length - 1) := by
      unfold splice_token
      rw [if_neg (by omega)]
    have htl : (L.take (L.length - 1)).length = L.length - 1 := by
      rw [List.length_take]
      omega
    rw [hsp, List.getElem?_append_right (by rw [htl]; omega), htl]
    have h1 : L.length - (L.length - 1) = 1 := by omega
    rw [h1]
    have hcons : (token_usage_item st ts :: L.drop (L.length - 1))[1]? =
        (L.drop (L.length - 1))[0]? := by simp
    rw [hcons, List.getElem?_drop]
    simp
  have hmid : 2 ≤ L.length →
      (splice_token (token_usage_item st ts) L).get? (L.length - 1) =
        some (token_usage_item st ts) := by
    intro h2
    have hsp : splice_token (token_usage_item st ts) L =
        L.take (L.length - 1) ++
          token_usage_item st ts :: L.drop (L.length - 1) := by
      unfold splice_token
      rw [if_neg (by omega)]
    have htl : (L.take (L.length - 1)).length = L.length - 1 := by
      rw [List.length_take]
      omega
    rw [List.get?_eq_getElem?, hsp,
      List.getElem?_append_right (by rw [htl]), htl]
    simp
  have hlast : 2 ≤ L.length →
      (splice_token (token_usage_item st ts) L).getLast? = L.getLast? := by
    intro h2
    rw [List.getLast?_eq_getElem?, List.getLast?_eq_getElem?, hlen]
    simpa using hsp_at_len h2
  have hflne : flushed_items ts st cid = splice_token (token_usage_item st ts) L := by
    unfold flushed_items
    rw [hb, hth]
    simp
  have heq := send_tracked_data_eq tp ds ts st cid hc hne L hb
    (by rw [hflne]; exact splice_token_ne_nil _ _)
  refine ⟨rfl, rfl, rfl, hsetlookup, hlen, happend,
    fun h2 => ⟨hmid h2, hlast h2⟩, ?_⟩
  rw [heq]
  refine ⟨_, rfl, ?_, ?_⟩
  · have hl := send_loop_from_length tp (flushed_items ts st cid) 0 {}
    simp only [send_loop]
    rw [hl, hflne, hlen]
    simp
  · intro lastIt hlastIt h2
    have hflget : (flushed_items ts st cid).get? L.length = some lastIt := by
      rw [List.get?_eq_getElem?, hflne, hsp_at_len h2]
      rw [← List.getLast?_eq_getElem?]
      exact hlastIt
    obtain ⟨res, hget, hidx, hty, hts2⟩ :=
      send_loop_from_get tp (flushed_items ts st cid) 0 {} L.length lastIt hflget
    refine ⟨res, ?_, hty, hts2⟩
    simpa [send_loop] using hget

/-! ## Flush state characterization -/

/-- After any `send_tracked_data` call: the configured id equals the resolved
id, the token handler is untouched, and whenever a report was returned (the
send phase was reached) the resolved id has no buffer entry any more. -/
theorem send_tracked_data_state (tp : Transport) (ds : Fin 12 → Fin 16)
    (ts : String) (st : TrackerState) :
    (send_tracked_data tp ds ts st).2.1.conversation_id =
      some (get_or_generate_conversation_id st none ds).1 ∧
    (send_tracked_data tp ds ts st).2.1.token_handler = st.token_handler ∧
    ((send_tracked_data tp ds ts st).1.isReport = true →
      lookupTracked (send_tracked_data tp ds ts st).2.1.tracked_data
        (some (get_or_generate_conversation_id st none ds).1) = none) := by
  have hcfg1 := gog_conversation_id st ds
  have hth1 := gog_token_handler st ds
  unfold send_tracked_data
  cases hb : lookupTracked (get_or_generate_conversation_id st none ds).2.tracked_data
      (some (get_or_generate_conversation_id st none ds).1) with
  | none =>
    simp only [hb]
    refine ⟨hcfg1, hth1, ?_⟩
    intro h
    simp [FlushOutcome.isReport] at h
  | some L =>
    simp only [hb]
    refine ⟨?_, ?_, ?_⟩
    · split
      · split
        · exact (add_token_usage_conversation_id _ _ _).trans hcfg1
        · exact (add_token_usage_conversation_id _ _ _).trans hcfg1
      · split
        · exact hcfg1
        · exact hcfg1
    · split
      · split
        · exact (add_token_usage_token_handler _ _ _).trans hth1
        · exact (add_token_usage_token_handler _ _ _).trans hth1
      · split
        · exact hth1
        · exact hth1
    · intro _
      split
      · split
        · exact lookupTracked_erase_self _ _
        · exact lookupTracked_erase_self _ _
      · split
        · exact lookupTracked_erase_self _ _
        · exact lookupTracked_erase_self _ _

/-! ## Claim C3 (corrected) -/

/-- **C3 counterexample**: in a state whose resolved conversation id has a
buffer entry with an *empty* item sequence while a token accumulator exists,
`send_tracked_data` does not raise `NoDataToSend`: the token splice makes the
sequence non-empty, so a report is returned and a transport call is made. -/
theorem flush_empty_entry_counterexample :
    (get_or_generate_conversation_id
        { conversation_id := some "c1", tracked_data := [(some "c1", [])],
          token_handler := some {} } none zeroHex).1 = "c1" ∧
    lookupTracked
        ({ conversation_id := some "c1", tracked_data := [(some "c1", [])],
           token_handler := some {} : TrackerState }).tracked_data (some "c1") =
      some [] ∧
    (send_tracked_data okTransport zeroHex "ts"
        { conversation_id := some "c1", tracked_data := [(some "c1", [])],
          token_handler := some {} }).1.isReport = true ∧
    (send_tracked_data okTransport zeroHex "ts"
        { conversation_id := some "c1", tracked_data := [(some "c1", [])],
          token_handler := some {} }).2.2.length = 1 := by
  refine ⟨?_, ?_, ?_, ?_⟩ <;> decide

/-- **C3 amended**: when the resolved conversation id has *no buffer entry*,
`send_tracked_data` raises `NoDataToSend` before any transport call is made,
and the buffer map and the token accumulator are exactly as they were before
the call. -/
theorem flush_no_entry_keeps_state (tp : Transport) (ds : Fin 12 → Fin 16)
    (ts : String) (st : TrackerState)
    (hb : lookupTracked st.tracked_data
      (some (get_or_generate_conversation_id st none ds).1) = none) :
    (∃ msg, (send_tracked_data tp ds ts st).1 = FlushOutcome.noData msg) ∧
    (send_tracked_data tp ds ts st).2.1.tracked_data = st.tracked_data ∧
    (send_tracked_data tp ds ts st).2.1.token_handler = st.token_handler ∧
    (send_tracked_data tp ds ts st).2.2 = [] := by
  rw [send_tracked_data_no_entry tp ds ts st hb]
  exact ⟨⟨_, rfl⟩, gog_tracked_data st ds, gog_token_handler st ds, rfl⟩

/-- Witness for the amended C3 at a concrete input. -/
theorem flush_no_entry_keeps_state_witness :
    (∃ msg, (send_tracked_data okTransport zeroHex "ts"
      { conversation_id := some "c9", tracked_data := [],
        token_handler := none }).1 = FlushOutcome.noData msg) ∧
    (send_tracked_data okTransport zeroHex "ts"
      { conversation_id := some "c9", tracked_data := [],
        token_handler := none }).2.1.tracked_data = [] ∧
    (send_tracked_data okTransport zeroHex "ts"
      { conversation_id := some "c9", tracked_data := [],
        token_handler := none }).2.1.token_handler = none ∧
    (send_tracked_data okTransport zeroHex "ts"
      { conversation_id := some "c9", tracked_data := [],
        token_handler := none }).2.2 = [] :=
  flush_no_entry_keeps_state okTransport zeroHex "ts"
    { conversation_id := some "c9", tracked_data := [], token_handler := none }
    (by decide)

/-! ## Claim C10 -/

/-- **C10**: a token-usage-only session can never be flushed.
`track_token_usage` never creates a buffer entry, so if the resolved
conversation id has no buffer entry while the token accumulator exists,
`send_tracked_data` raises `NoDataToSend` without making any transport call
(no token-usage item is synthesized or sent), and the buffer map and the
token counters are unchanged. -/
theorem token_only_session_never_flushed (tp : Transport) (ds : Fin 12 → Fin 16)
    (ts : String) (st : TrackerState) (h : TokenHandler)
    (hth : st.token_handler = some h)
    (hb : lookupTracked st.tracked_data
      (some (get_or_generate_conversation_id st none ds).1) = none) :
    (∀ p c t e st2, (track_token_usage p c t e st2).tracked_data = st2.tracked_data) ∧
    (∃ msg, (send_tracked_data tp ds ts st).1 = FlushOutcome.noData msg) ∧
    (send_tracked_data tp ds ts st).2.2 = [] ∧
    (send_tracked_data tp ds ts st).2.1.tracked_data = st.tracked_data ∧
    (send_tracked_data tp ds ts st).2.1.token_handler = some h := by
  rw [send_tracked_data_no_entry tp ds ts st hb]
  exact ⟨fun p c t e st2 => rfl, ⟨_, rfl⟩, rfl, gog_tracked_data st ds,
    (gog_token_handler st ds).trans hth⟩

/-- Witness for C10 at a concrete input: one `track_token_usage` call and no
buffer-appending call. -/
theorem token_only_session_never_flushed_witness :
    (∃ msg, (send_tracked_data okTransport zeroHex "ts"
      (track_token_usage 3 4 7 0
        { conversation_id := some "c9", tracked_data := [],
          token_handler := none })).1 = FlushOutcome.noData msg) ∧
    (send_tracked_data okTransport zeroHex "ts"
      (track_token_usage 3 4 7 0
        { conversation_id := some "c9", tracked_data := [],
          token_handler := none })).2.1.token_handler =
      some { prompt_llm_token_count := 3, completion_llm_token_count := 4,
             total_llm_token_count := 7, total_embedding_token_count := 0 } := by
  obtain ⟨-, hmsg, -, -, hth⟩ := token_only_session_never_flushed okTransport zeroHex "ts"
    (track_token_usage 3 4 7 0
      { conversation_id := some "c9", tracked_data := [], token_handler := none })
    { prompt_llm_token_count := 3, completion_llm_token_count := 4,
      total_llm_token_count := 7, total_embedding_token_count := 0 }
    (by decide) (by decide)
  exact ⟨hmsg, hth⟩

/-! ## Claim C5 -/

/-- **C5** (drain clears state): after any `send_tracked_data` call that
reaches the send phase (returns a report), the resolved conversation id is
absent from the buffer map — regardless of the transport behaviour, i.e. no
matter how many per-item sends failed, with no re-queueing — and a second
`send_tracked_data` with no intervening track calls raises `NoDataToSend`. -/
theorem flush_drains_buffer (tp : Transport) (ds : Fin 12 → Fin 16) (ts : String)
    (st : TrackerState)
    (hrep : (send_tracked_data tp ds ts st).1.isReport = true) :
    lookupTracked (send_tracked_data tp ds ts st).2.1.tracked_data
      (some (get_or_generate_conversation_id st none ds).1) = none ∧
    ∀ (tp2 : Transport) (ds2 : Fin 12 → Fin 16) (ts2 : String), ∃ msg,
      (send_tracked_data tp2 ds2 ts2 (send_tracked_data tp ds ts st).2.1).1 =
        FlushOutcome.noData msg := by
  obtain ⟨hcfg, hth, hlook⟩ := send_tracked_data_state tp ds ts st
  have hnone := hlook hrep
  refine ⟨hnone, ?_⟩
  intro tp2 ds2 ts2
  have hne : (get_or_generate_conversation_id st none ds).1 ≠ "" := gog_ne_empty st ds
  have hgog2 := gog_of_config (send_tracked_data tp ds ts st).2.1
    (get_or_generate_conversation_id st none ds).1 ds2 hcfg hne
  have hb2 : lookupTracked (send_tracked_data tp ds ts st).2.1.tracked_data
      (some (get_or_generate_conversation_id
        (send_tracked_data tp ds ts st).2.1 none ds2).1) = none := by
    rw [hgog2]
    exact hnone
  rw [send_tracked_data_no_entry tp2 ds2 ts2 _ hb2]
  exact ⟨_, rfl⟩

/-! ## Claim C6 -/

/-- **C6** (flush never resets token counters): for every state with an
existing token accumulator, `send_tracked_data` leaves the four counters
exactly as they were; the counters change only through `track_token_usage`,
which adds its (non-negative) arguments — monotonically — and no reset is
reachable from the flush path. -/
theorem flush_preserves_token_accumulator (tp : Transport) (ds : Fin 12 → Fin 16)
    (ts : String) (st : TrackerState) (h : TokenHandler)
    (hth : st.token_handler = some h) :
    (send_tracked_data tp ds ts st).2.1.token_handler = some h ∧
    ∀ p c t e,
      (track_token_usage p c t e st).token_handler =
        some { prompt_llm_token_count := h.prompt_llm_token_count + p
               completion_llm_token_count := h.completion_llm_token_count + c
               total_llm_token_count := h.total_llm_token_count + t
               total_embedding_token_count := h.total_embedding_token_count + e } ∧
      h.prompt_llm_token_count ≤ h.prompt_llm_token_count + p ∧
      h.completion_llm_token_count ≤ h.completion_llm_token_count + c ∧
      h.total_llm_token_count ≤ h.total_llm_token_count + t ∧
      h.total_embedding_token_count ≤ h.total_embedding_token_count + e := by
  refine ⟨(send_tracked_data_state tp ds ts st).2.1.trans hth, ?_⟩
  intro p c t e
  refine ⟨?_, Nat.le_add_right _ _, Nat.le_add_right _ _, Nat.le_add_right _ _,
    Nat.le_add_right _ _⟩
  unfold track_token_usage
  rw [hth]
  simp

/-- Witness for C5 at a concrete input. -/
theorem flush_drains_buffer_witness :
    lookupTracked (send_tracked_data okTransport zeroHex "ts" sample_state).2.1.tracked_data
      (some (get_or_generate_conversation_id sample_state none zeroHex).1) = none ∧
    ∃ msg, (send_tracked_data okTransport zeroHex "ts2"
      (send_tracked_data okTransport zeroHex "ts" sample_state).2.1).1 =
        FlushOutcome.noData msg := by
  obtain ⟨h1, h2⟩ := flush_drains_buffer okTransport zeroHex "ts" sample_state (by decide)
  exact ⟨h1, h2 okTransport zeroHex "ts2"⟩

/-- Witness for C6 at a concrete input. -/
theorem flush_preserves_token_accumulator_witness :
    (send_tracked_data okTransport zeroHex "ts" sample_state_tok).2.1.token_handler =
      some { prompt_llm_token_count := 5, completion_llm_token_count := 6,
             total_llm_token_count := 11, total_embedding_token_count := 0 } ∧
    (track_token_usage 1 2 3 4 sample_state_tok).token_handler =
      some { prompt_llm_token_count := 6, completion_llm_token_count := 8,
             total_llm_token_count := 14, total_embedding_token_count := 4 } := by
  obtain ⟨h1, h2⟩ := flush_preserves_token_accumulator okTransport zeroHex "ts"
    sample_state_tok _ rfl
  exact ⟨h1, ((h2 1 2 3 4).1).trans (by decide)⟩

/-! ## Claim C9 -/

theorem track_token_calls_handler (calls : List (Nat × Nat × Nat × Nat)) :
    ∀ (st : TrackerState) (h : TokenHandler), st.token_handler = some h →
      (track_token_calls calls st).token_handler = some
        { prompt_llm_token_count :=
            h.prompt_llm_token_count + (calls.map fun q => q.1).sum
          completion_llm_token_count :=
            h.completion_llm_token_count + (calls.map fun q => q.2.1).sum
          total_llm_token_count :=
            h.total_llm_token_count + (calls.map fun q => q.2.2.1).sum
          total_embedding_token_count :=
            h.total_embedding_token_count + (calls.map fun q => q.2.2.2).sum } := by
  induction calls with
  | nil => intro st h hth; simpa [track_token_calls] using hth
  | cons q rest ih =>
    intro st h hth
    unfold track_token_calls at ih ⊢
    rw [List.foldl_cons]
    have hstep : (track_token_usage q.1 q.2.1 q.2.2.1 q.2.2.2 st).token_handler = some
        { prompt_llm_token_count := h.prompt_llm_token_count + q.1
          completion_llm_token_count := h.completion_llm_token_count + q.2.1
          total_llm_token_count := h.total_llm_token_count + q.2.2.1
          total_embedding_token_count := h.total_embedding_token_count + q.2.2.2 } := by
      unfold track_token_usage
      rw [hth]
      simp
    rw [ih _ _ hstep]
    simp only [List.map_cons, List.sum_cons, Option.some.injEq, TokenHandler.mk.injEq]
    omega

/-- **C9** (token accumulator correctness): after `n` `track_token_usage`
calls, `get_token_usage` returns exactly the component-wise sums of the
arguments (the first call allocating a zeroed accumulator), whereas with zero
calls it returns the empty result, so "never used" is distinguishable from
"all zero". -/
theorem get_token_usage_accumulates (st0 : TrackerState)
    (h0 : st0.token_handler = none) (calls : List (Nat × Nat × Nat × Nat)) :
    (calls = [] → get_token_usage (track_token_calls calls st0) = none) ∧
    (calls ≠ [] → get_token_usage (track_token_calls calls st0) =
      some { prompt_tokens := (calls.map fun q => q.1).sum
             completion_tokens := (calls.map fun q => q.2.1).sum
             total_tokens := (calls.map fun q => q.2.2.1).sum
             embedding_tokens := (calls.map fun q => q.2.2.2).sum }) := by
  constructor
  · intro hnil
    subst hnil
    unfold get_token_usage track_token_calls
    simp [h0]
  · intro hne
    obtain ⟨q, rest, rfl⟩ : ∃ q rest, calls = q :: rest := by
      cases calls with
      | nil => exact absurd rfl hne
      | cons q rest => exact ⟨q, rest, rfl⟩
    have hstep : (track_token_usage q.1 q.2.1 q.2.2.1 q.2.2.2 st0).token_handler =
        some { prompt_llm_token_count := q.1, completion_llm_token_count := q.2.1,
               total_llm_token_count := q.2.2.1,
               total_embedding_token_count := q.2.2.2 } := by
      unfold track_token_usage
      rw [h0]
      simp
    unfold track_token_calls
    rw [List.foldl_cons]
    have hrest := track_token_calls_handler rest _ _ hstep
    unfold track_token_calls at hrest
    unfold get_token_usage
    rw [hrest]
    simp only [Option.map_some', List.map_cons, List.sum_cons, Option.some.injEq,
      TokenUsage.mk.injEq]

/-- Witness for C9 at a concrete input: two calls, then zero calls. -/
theorem get_token_usage_accumulates_witness :
    get_token_usage (track_token_calls [(1, 2, 3, 4), (10, 20, 30, 40)]
      { conversation_id := none, tracked_data := [], token_handler := none }) =
      some { prompt_tokens := 11, completion_tokens := 22,
             total_tokens := 33, embedding_tokens := 44 } ∧
    get_token_usage (track_token_calls []
      { conversation_id := none, tracked_data := [], token_handler := none }) =
      none := by
  have h1 := (get_token_usage_accumulates
    { conversation_id := none, tracked_data := [], token_handler := none } rfl
    [(1, 2, 3, 4), (10, 20, 30, 40)]).2 (by decide)
  have h2 := (get_token_usage_accumulates
    { conversation_id := none, tracked_data := [], token_handler := none } rfl []).1 rfl
  exact ⟨h1.trans (by decide), h2⟩

/-! ## Per-item dispatch lemmas -/

theorem prepared_data_mode (convId : Option String) (item : TrackedItem) :
    (prepared_data convId item).mode = item.data.mode := by
  unfold prepared_data
  split <;> rfl

theorem bump_summary_errors (sm : Summary) (k : Kind) :
    (bump_summary sm k).errors = sm.errors := by
  cases k <;> rfl

/-- When every transport call at index `i` succeeds (with a server id in the
response), the dispatch of any item with a stored mode succeeds. -/
theorem dispatch_item_ok (tp : Transport) (i : Nat) (conv : Option String)
    (item : TrackedItem) (hm : modeOk item)
    (hp : ∀ ep d, ∃ r, tp.sendPayload i ep d = Except.ok r ∧ r.id ≠ none)
    (hf : ∀ d c t, ∃ r, tp.sendFormDataPayload i d c t = Except.ok r) :
    ∃ r nc cs, dispatch_item tp i conv item = (Except.ok r, nc, cs) := by
  unfold dispatch_item
  cases hty : item.type with
  | conversation =>
    simp only []
    obtain ⟨r, hr, hid⟩ := hp "conversation" (prepared_data conv item)
    cases hid2 : r.id with
    | none => exact absurd hid2 hid
    | some sid =>
      simp only [hr, hid2]
      exact ⟨r, some sid, _, rfl⟩
  | question =>
    simp only []
    obtain ⟨r, hr, -⟩ := hp "question" (prepared_data conv item)
    rw [hr]
    exact ⟨r, conv, _, rfl⟩
  | answer =>
    simp only []
    obtain ⟨r, hr, -⟩ := hp "answer" (prepared_data conv item)
    rw [hr]
    exact ⟨r, conv, _, rfl⟩
  | attachments =>
    simp only []
    rw [prepared_data_mode]
    cases hmode : item.data.mode with
    | none => exact absurd (hm hty) (by rw [hmode]; simp)
    | some m =>
      simp only []
      by_cases hbase : m = "base64"
      · rw [if_pos hbase]
        obtain ⟨r, hr, -⟩ := hp "attachments" (prepared_data conv item)
        rw [hr]
        exact ⟨r, conv, _, rfl⟩
      · rw [if_neg hbase]
        obtain ⟨r, hr⟩ := hf (prepared_data conv item) conv item.timestamp
        rw [hr]
        exact ⟨r, conv, _, rfl⟩
  | action =>
    simp only []
    obtain ⟨r, hr, -⟩ := hp "action" (prepared_data conv item)
    rw [hr]
    exact ⟨r, conv, _, rfl⟩
  | button =>
    simp only []
    obtain ⟨r, hr, -⟩ := hp "button" (prepared_data conv item)
    rw [hr]
    exact ⟨r, conv, _, rfl⟩

/-- When every transport call at index `i` raises `emsg`, the dispatch of any
item with a stored mode fails with `emsg` and leaves the threaded server id
unchanged. -/
theorem dispatch_item_err (tp : Transport) (i : Nat) (conv : Option String)
    (item : TrackedItem) (emsg : String) (hm : modeOk item)
    (hp : ∀ ep d, tp.sendPayload i ep d = Except.error emsg)
    (hf : ∀ d c t, tp.sendFormDataPayload i d c t = Except.error emsg) :
    ∃ cs, dispatch_item tp i conv item = (Except.error emsg, conv, cs) := by
  unfold dispatch_item
  cases hty : item.type with
  | conversation =>
    simp only []
    rw [hp "conversation" (prepared_data conv item)]
    exact ⟨_, rfl⟩
  | question =>
    simp only []
    rw [hp "question" (prepared_data conv item)]
    exact ⟨_, rfl⟩
  | answer =>
    simp only []
    rw [hp "answer" (prepared_data conv item)]
    exact ⟨_, rfl⟩
  | attachments =>
    simp only []
    rw [prepared_data_mode]
    cases hmode : item.data.mode with
    | none => exact absurd (hm hty) (by rw [hmode]; simp)
    | some m =>
      simp only []
      by_cases hbase : m = "base64"
      · rw [if_pos hbase, hp "attachments" (prepared_data conv item)]
        exact ⟨_, rfl⟩
      · rw [if_neg hbase, hf (prepared_data conv item) conv item.timestamp]
        exact ⟨_, rfl⟩
  | action =>
    simp only []
    rw [hp "action" (prepared_data conv item)]
    exact ⟨_, rfl⟩
  | button =>
    simp only []
    rw [hp "button" (prepared_data conv item)]
    exact ⟨_, rfl⟩

theorem send_loop_step_ok_fields (tp : Transport) (i : Nat) (item : TrackedItem)
    (s : LoopState) (hm : modeOk item)
    (hp : ∀ ep d, ∃ r, tp.sendPayload i ep d = Except.ok r ∧ r.id ≠ none)
    (hf : ∀ d c t, ∃ r, tp.sendFormDataPayload i d c t = Except.ok r) :
    (send_loop_step tp i item s).summary.errors = s.summary.errors ∧
    ∃ res, (send_loop_step tp i item s).results = s.results ++ [res] ∧
      res.success = true := by
  obtain ⟨r, nc, cs, hd⟩ := dispatch_item_ok tp i s.conversation item hm hp hf
  unfold send_loop_step
  rw [hd]
  exact ⟨bump_summary_errors s.summary item.type, ⟨_, rfl, rfl⟩⟩

theorem send_loop_step_err_fields (tp : Transport) (i : Nat) (item : TrackedItem)
    (s : LoopState) (emsg : String) (hm : modeOk item)
    (hp : ∀ ep d, tp.sendPayload i ep d = Except.error emsg)
    (hf : ∀ d c t, tp.sendFormDataPayload i d c t = Except.error emsg) :
    (send_loop_step tp i item s).summary.errors = s.summary.errors + 1 ∧
    ∃ res, (send_loop_step tp i item s).results = s.results ++ [res] ∧
      res.success = false ∧ res.error = some emsg := by
  obtain ⟨cs, hd⟩ := dispatch_item_err tp i s.conversation item emsg hm hp hf
  unfold send_loop_step
  rw [hd]
  exact ⟨rfl, ⟨_, rfl, rfl, rfl⟩⟩

/-! ## Failure-isolation loop lemmas -/

theorem send_loop_from_errors (tp : Transport) (emsg : String) (j : Nat)
    (herrp : ∀ ep d, tp.sendPayload j ep d = Except.error emsg)
    (herrf : ∀ d c t, tp.sendFormDataPayload j d c t = Except.error emsg)
    (hok : ∀ m, m ≠ j →
      (∀ ep d, ∃ r, tp.sendPayload m ep d = Except.ok r ∧ r.id ≠ none) ∧
      (∀ d c t, ∃ r, tp.sendFormDataPayload m d c t = Except.ok r)) :
    ∀ (items : List TrackedItem) (i : Nat) (s : LoopState),
      (∀ it ∈ items, modeOk it) →
      (send_loop_from tp i items s).summary.errors =
        s.summary.errors + (if i ≤ j ∧ j < i + items.length then 1 else 0) := by
  intro items
  induction items with
  | nil => intro i s _; simp [send_loop_from]
  | cons hd rest ih =>
    intro i s hmode
    rw [send_loop_from]
    rw [ih (i + 1) _ (fun it hit => hmode it (by simp [hit]))]
    by_cases hij : i = j
    · subst hij
      obtain ⟨herr, -⟩ := send_loop_step_err_fields tp i hd s emsg
        (hmode hd (by simp)) herrp herrf
      rw [herr, if_neg (by omega),
        if_pos (show i ≤ i ∧ i < i + (hd :: rest).length by
          simp only [List.length_cons]; omega)]
    · obtain ⟨herr, -⟩ := send_loop_step_ok_fields tp i hd s
        (hmode hd (by simp)) (hok i hij).1 (hok i hij).2
      rw [herr]
      by_cases hcnd : i + 1 ≤ j ∧ j < i + 1 + rest.length
      · rw [if_pos hcnd, if_pos (show i ≤ j ∧ j < i + (hd :: rest).length by
          simp only [List.length_cons]; omega)]
      · rw [if_neg hcnd, if_neg (show ¬(i ≤ j ∧ j < i + (hd :: rest).length) by
          simp only [List.length_cons]; omega)]

theorem send_loop_from_success_flags (tp : Transport) (emsg : String) (j : Nat)
    (herrp : ∀ ep d, tp.sendPayload j ep d = Except.error emsg)
    (herrf : ∀ d c t, tp.sendFormDataPayload j d c t = Except.error emsg)
    (hok : ∀ m, m ≠ j →
      (∀ ep d, ∃ r, tp.sendPayload m ep d = Except.ok r ∧ r.id ≠ none) ∧
      (∀ d c t, ∃ r, tp.sendFormDataPayload m d c t = Except.ok r)) :
    ∀ (items : List TrackedItem) (i : Nat) (s : LoopState),
      (∀ it ∈ items, modeOk it) →
      ∀ k item, items.get? k = some item →
        ∃ res, (send_loop_from tp i items s).results.get? (s.results.length + k) =
            some res ∧
          res.success = decide (i + k ≠ j) ∧ (i + k = j → res.error = some emsg) := by
  intro items
  induction items with
  | nil => intro i s _ k item h; simp at h
  | cons hd rest ih =>
    intro i s hmode k item h
    rw [send_loop_from]
    cases k with
    | zero =>
      obtain ⟨tail, htail⟩ := send_loop_from_results_extend tp rest (i + 1)
        (send_loop_step tp i hd s)
      by_cases hij : i = j
      · subst hij
        obtain ⟨-, res, hres, hsucc, herr2⟩ := send_loop_step_err_fields tp i hd s emsg
          (hmode hd (by simp)) herrp herrf
        refine ⟨res, ?_, by simp [hsucc], fun _ => herr2⟩
        rw [htail, hres, List.append_assoc, List.get?_eq_getElem?,
          List.getElem?_append_right (by omega)]
        simp
      · obtain ⟨-, res, hres, hsucc⟩ := send_loop_step_ok_fields tp i hd s
          (hmode hd (by simp)) (hok i hij).1 (hok i hij).2
        refine ⟨res, ?_, by simp [hsucc, hij], fun hcon => absurd (by omega) hij⟩
        rw [htail, hres, List.append_assoc, List.get?_eq_getElem?,
          List.getElem?_append_right (by omega)]
        simp
    | succ k =>
      simp only [List.get?_cons_succ] at h
      obtain ⟨res, hget, hsucc, herr2⟩ := ih (i + 1) (send_loop_step tp i hd s)
        (fun it hit => hmode it (by simp [hit])) k item h
      obtain ⟨res0, hres0, -, -, -⟩ := send_loop_step_results tp i hd s
      refine ⟨res, ?_, ?_, ?_⟩
      · rw [hres0] at hget
        simpa [List.length_append, Nat.add_assoc, Nat.add_comm 1 k] using hget
      · simpa [Nat.add_assoc, Nat.add_comm 1 k] using hsucc
      · intro hkj
        exact herr2 (by omega)

/-! ## Claim C4 -/

/-- **C4** (per-item failure isolation): when the transport call for the item
at index `j` of the flushed sequence raises and every other call succeeds, the
flush still returns a report (it does not raise), the report contains one
result per flushed item, the failed item's result records
`{index, kind, timestamp, success := false, error}`, every other result has
`success := true`, and `summary.errors = 1`. -/
theorem flush_per_item_isolation
    (st : TrackerState) (cid ts : String) (tp : Transport) (ds : Fin 12 → Fin 16)
    (emsg : String) (j : Nat)
    (hc : st.conversation_id = some cid) (hne : cid ≠ "")
    (L : List TrackedItem) (hb : lookupTracked st.tracked_data (some cid) = some L)
    (hfl : flushed_items ts st cid ≠ [])
    (hmode : ∀ it ∈ flushed_items ts st cid, modeOk it)
    (hj : j < (flushed_items ts st cid).length)
    (herrp : ∀ ep d, tp.sendPayload j ep d = Except.error emsg)
    (herrf : ∀ d c t, tp.sendFormDataPayload j d c t = Except.error emsg)
    (hok : ∀ m, m ≠ j →
      (∀ ep d, ∃ r, tp.sendPayload m ep d = Except.ok r ∧ r.id ≠ none) ∧
      (∀ d c t, ∃ r, tp.sendFormDataPayload m d c t = Except.ok r)) :
    ∃ r : FlushReport,
      (send_tracked_data tp ds ts st).1 = FlushOutcome.report r ∧
      r.items.length = (flushed_items ts st cid).length ∧
      r.summary.errors = 1 ∧
      ∀ k item, (flushed_items ts st cid).get? k = some item →
        ∃ res, r.items.get? k = some res ∧ res.index = k ∧ res.type = item.type ∧
          res.timestamp = item.timestamp ∧ res.success = decide (k ≠ j) ∧
          (k = j → res.error = some emsg) := by
  rw [send_tracked_data_eq tp ds ts st cid hc hne L hb hfl]
  refine ⟨_, rfl, ?_, ?_, ?_⟩
  · have hl := send_loop_from_length tp (flushed_items ts st cid) 0 {}
    simpa [send_loop] using hl
  · have he := send_loop_from_errors tp emsg j herrp herrf hok
      (flushed_items ts st cid) 0 {} hmode
    rw [if_pos ⟨Nat.zero_le j, by omega⟩] at he
    simpa [send_loop] using he
  · intro k item hk
    obtain ⟨res, hget, hidx, hty, htimestamp⟩ :=
      send_loop_from_get tp (flushed_items ts st cid) 0 {} k item hk
    obtain ⟨res2, hget2, hsucc, herr2⟩ :=
      send_loop_from_success_flags tp emsg j herrp herrf hok
        (flushed_items ts st cid) 0 {} hmode k item hk
    have heqr : res = res2 := by
      rw [hget] at hget2
      exact Option.some.inj hget2
    refine ⟨res, ?_, by omega, hty, htimestamp, ?_, ?_⟩
    · simpa [send_loop] using hget
    · rw [heqr]
      simpa using hsucc
    · intro hkj
      rw [heqr]
      exact herr2 (by omega)

/-- Witness for C4 at a concrete input: three buffered items, the second
item's transport call raises. -/
theorem flush_per_item_isolation_witness :
    ∃ r : FlushReport,
      (send_tracked_data fail_second_transport zeroHex "ts" three_item_state).1 =
        FlushOutcome.report r ∧
      r.items.length = 3 ∧ r.summary.errors = 1 := by
  obtain ⟨r, hrep, hlen, herr, -⟩ := flush_per_item_isolation three_item_state "c1" "ts"
    fail_second_transport zeroHex "boom" 1 rfl (by decide)
    [⟨Kind.question, "t1", { content := some "q" }⟩,
     ⟨Kind.answer, "t2", { content := some "a" }⟩,
     ⟨Kind.action, "t3", { action_name := some "act" }⟩] (by decide) (by decide)
    (by decide) (by decide)
    (fun ep d => rfl) (fun d c t => rfl)
    (fun m hm => ⟨fun ep d => ⟨{ id := some "srv1", body := "ok" },
        by simp [fail_second_transport, hm], by simp⟩,
      fun d c t => ⟨{ id := none, body := "ok" },
        by simp [fail_second_transport, hm]⟩⟩)
  refine ⟨r, hrep, ?_, herr⟩
  rw [hlen]
  decide

/-- Witness for C1 at a concrete input. -/
theorem send_tracked_data_order_preservation_witness :
    ∃ r : FlushReport,
      (send_tracked_data okTransport zeroHex "t3"
        (track_many [(Kind.question, "t1", { content := some "hi" }),
                     (Kind.answer, "t2", { content := some "yo" })]
          (fresh_tracker "c1" (some {})))).1 = FlushOutcome.report r ∧
      r.items.length = 3 := by
  obtain ⟨-, r, hrep, hlen, -⟩ := send_tracked_data_order_preservation "c1" (by decide)
    (some {}) [(Kind.question, "t1", { content := some "hi" }),
               (Kind.answer, "t2", { content := some "yo" })] (by decide)
    okTransport zeroHex "t3"
    (fun i ep d => ⟨{ id := some "srv1", body := "ok" }, rfl, by simp⟩)
    (fun i d c t => ⟨{ id := none, body := "ok" }, rfl⟩)
  exact ⟨r, hrep, by rw [hlen]; decide⟩

/-- Witness for C2 at a concrete input: with two buffered items the token item
lands between them (position `length − 1`), the pre-existing last item remains
last, and the flush sends three items. -/
theorem token_usage_splice_position_witness :
    lookupTracked (add_token_usage "c1" "ts" two_item_tok_state).tracked_data
      (some "c1") =
      some [⟨Kind.question, "t1", { content := some "q" }⟩,
            token_usage_item two_item_tok_state "ts",
            ⟨Kind.answer, "t2", { content := some "a" }⟩] ∧
    ∃ r : FlushReport,
      (send_tracked_data okTransport zeroHex "ts" two_item_tok_state).1 =
        FlushOutcome.report r ∧ r.items.length = 3 := by
  obtain ⟨-, -, -, hlook, hlen, -, -, r, hrep, hrl, -⟩ :=
    token_usage_splice_position two_item_tok_state "c1" "ts" _ okTransport zeroHex
      rfl rfl (by decide) _ rfl
  refine ⟨?_, r, hrep, hrl⟩
  rw [hlook]
  decide

/-! ## Server-id threading lemmas -/

theorem prepared_data_of_conversation (convId : Option String) (item : TrackedItem)
    (h : item.type = Kind.conversation) :
    prepared_data convId item =
      { item.data with timestamp_field := some item.timestamp } := by
  unfold prepared_data
  rw [if_pos h]

theorem prepared_data_conversation_field (convId : Option String)
    (item : TrackedItem) (h : item.type ≠ Kind.conversation) :
    (prepared_data convId item).conversation = some convId := by
  unfold prepared_data
  rw [if_neg h]

theorem dispatch_item_conv_of_ne (tp : Transport) (i : Nat) (conv : Option String)
    (item : TrackedItem) (hty : item.type ≠ Kind.conversation) :
    (dispatch_item tp i conv item).2.1 = conv := by
  unfold dispatch_item
  cases h : item.type with
  | conversation => exact absurd h hty
  | question => rfl
  | answer => rfl
  | attachments =>
    simp only []
    cases (prepared_data conv item).mode with
    | none => rfl
    | some m =>
      simp only []
      by_cases hbase : m = "base64"
      · rw [if_pos hbase]
      · rw [if_neg hbase]
  | action => rfl
  | button => rfl

theorem dispatch_item_conv_success (tp : Transport) (i : Nat) (conv : Option String)
    (item : TrackedItem) (r : Response) (sid : String)
    (hty : item.type = Kind.conversation)
    (hr : tp.sendPayload i "conversation" (prepared_data conv item) = Except.ok r)
    (hid : r.id = some sid) :
    (dispatch_item tp i conv item).2.1 = some sid := by
  unfold dispatch_item
  rw [hty]
  simp only [hr, hid]

theorem dispatch_item_conv_of_no_id (tp : Transport) (i : Nat) (conv : Option String)
    (item : TrackedItem) (hty : item.type = Kind.conversation)
    (hnoid : ∀ r, tp.sendPayload i "conversation" (prepared_data conv item) =
      Except.ok r → r.id = none) :
    (dispatch_item tp i conv item).2.1 = conv := by
  unfold dispatch_item
  rw [hty]
  simp only []
  cases hr : tp.sendPayload i "conversation" (prepared_data conv item) with
  | ok r => simp only [hnoid r hr]
  | error e => rfl

theorem send_loop_step_conv_eq_dispatch (tp : Transport) (i : Nat)
    (item : TrackedItem) (s : LoopState) :
    (send_loop_step tp i item s).conversation =
      (dispatch_item tp i s.conversation item).2.1 := by
  unfold send_loop_step
  rcases hd : dispatch_item tp i s.conversation item with ⟨ex, nc, cs⟩
  cases ex with
  | ok r => rfl
  | error e => rfl

theorem dispatch_item_calls (tp : Transport) (i : Nat) (conv : Option String)
    (item : TrackedItem) :
    ∀ c ∈ (dispatch_item tp i conv item).2.2,
      c.itemIndex = i ∧ c.data = prepared_data conv item := by
  unfold dispatch_item
  cases hty : item.type with
  | conversation =>
    intro c hc
    cases hq : tp.sendPayload i "conversation" (prepared_data conv item) with
    | ok r =>
      cases hid : r.id with
      | some sid =>
        simp only [hq, hid, List.mem_singleton] at hc
        subst hc
        exact ⟨rfl, rfl⟩
      | none =>
        simp only [hq, hid, List.mem_singleton] at hc
        subst hc
        exact ⟨rfl, rfl⟩
    | error e =>
      simp only [hq, List.mem_singleton] at hc
      subst hc
      exact ⟨rfl, rfl⟩
  | question => intro c hc; simp only [List.mem_singleton] at hc; subst hc; exact ⟨rfl, rfl⟩
  | answer => intro c hc; simp only [List.mem_singleton] at hc; subst hc; exact ⟨rfl, rfl⟩
  | attachments =>
    simp only []
    cases (prepared_data conv item).mode with
    | none => intro c hc; simp at hc
    | some m =>
      simp only []
      by_cases hbase : m = "base64"
      · rw [if_pos hbase]
        intro c hc; simp only [List.mem_singleton] at hc; subst hc; exact ⟨rfl, rfl⟩
      · rw [if_neg hbase]
        intro c hc; simp only [List.mem_singleton] at hc; subst hc; exact ⟨rfl, rfl⟩
  | action => intro c hc; simp only [List.mem_singleton] at hc; subst hc; exact ⟨rfl, rfl⟩
  | button => intro c hc; simp only [List.mem_singleton] at hc; subst hc; exact ⟨rfl, rfl⟩

theorem dispatch_item_calls_ne (tp : Transport) (i : Nat) (conv : Option String)
    (item : TrackedItem) (hm : modeOk item) :
    (dispatch_item tp i conv item).2.2 ≠ [] := by
  unfold dispatch_item
  cases hty : item.type with
  | conversation =>
    simp only []
    cases hq : tp.sendPayload i "conversation" (prepared_data conv item) with
    | ok r => cases hid : r.id <;> simp [hid]
    | error e => simp
  | question => simp
  | answer => simp
  | attachments =>
    simp only []
    rw [prepared_data_mode]
    cases hmode : item.data.mode with
    | none => exact absurd (hm hty) (by rw [hmode]; simp)
    | some m =>
      simp only []
      by_cases hbase : m = "base64"
      · rw [if_pos hbase]; simp
      · rw [if_neg hbase]; simp
  | action => simp
  | button => simp

theorem send_loop_step_calls (tp : Transport) (i : Nat) (item : TrackedItem)
    (s : LoopState) :
    ∃ cs, (send_loop_step tp i item s).calls = s.calls ++ cs ∧
      cs = (dispatch_item tp i s.conversation item).2.2 := by
  unfold send_loop_step
  rcases hd : dispatch_item tp i s.conversation item with ⟨ex, nc, cs⟩
  cases ex with
  | ok r => exact ⟨cs, rfl, rfl⟩
  | error e => exact ⟨cs, rfl, rfl⟩

theorem send_loop_from_append (tp : Transport) :
    ∀ (l1 l2 : List TrackedItem) (i : Nat) (s : LoopState),
      send_loop_from tp i (l1 ++ l2) s =
        send_loop_from tp (i + l1.length) l2 (send_loop_from tp i l1 s) := by
  intro l1
  induction l1 with
  | nil => intro l2 i s; simp [send_loop_from]
  | cons hd rest ih =>
    intro l2 i s
    rw [List.cons_append, send_loop_from, send_loop_from, ih]
    have : i + 1 + rest.length = i + (hd :: rest).length := by
      simp [List.length_cons]
      omega
    rw [this]

theorem send_loop_from_calls_extend (tp : Transport) :
    ∀ (items : List TrackedItem) (i : Nat) (s : LoopState),
      ∃ tail, (send_loop_from tp i items s).calls = s.calls ++ tail := by
  intro items
  induction items with
  | nil => intro i s; exact ⟨[], by simp [send_loop_from]⟩
  | cons hd rest ih =>
    intro i s
    rw [send_loop_from]
    obtain ⟨cs, hcs, -⟩ := send_loop_step_calls tp i hd s
    obtain ⟨tail, htail⟩ := ih (i + 1) (send_loop_step tp i hd s)
    exact ⟨cs ++ tail, by rw [htail, hcs]; simp⟩

theorem send_loop_from_conv_preserved (tp : Transport) :
    ∀ (mid : List TrackedItem) (i : Nat) (s : LoopState),
      (∀ m itm, mid.get? m = some itm → itm.type = Kind.conversation →
        ∀ r2, tp.sendPayload (i + m) "conversation"
          { itm.data with timestamp_field := some itm.timestamp } = Except.ok r2 →
          r2.id = none) →
      (send_loop_from tp i mid s).conversation = s.conversation := by
  intro mid
  induction mid with
  | nil => intro i s _; rfl
  | cons hd rest ih =>
    intro i s hmid
    rw [send_loop_from]
    rw [ih (i + 1) (send_loop_step tp i hd s) ?shifted]
    case shifted =>
      intro m itm hm hty r2 hr2
      refine hmid (m + 1) itm (by simpa using hm) hty r2 ?_
      rw [show i + (m + 1) = i + 1 + m from by omega]
      exact hr2
    by_cases hty : hd.type = Kind.conversation
    · rw [send_loop_step_conv_eq_dispatch]
      refine dispatch_item_conv_of_no_id tp i s.conversation hd hty ?_
      intro r2 hr2
      refine hmid 0 hd rfl hty r2 ?_
      rw [Nat.add_zero]
      rw [prepared_data_of_conversation _ _ hty] at hr2
      exact hr2
    · rw [send_loop_step_conv_eq_dispatch]
      exact dispatch_item_conv_of_ne tp i s.conversation hd hty

theorem send_loop_from_calls_mem (tp : Transport) :
    ∀ (items : List TrackedItem) (i : Nat) (s : LoopState),
      ∀ c ∈ (send_loop_from tp i items s).calls,
        c ∈ s.calls ∨ ∃ m item, items.get? m = some item ∧ c.itemIndex = i + m ∧
          c.data =
            prepared_data (send_loop_from tp i (items.take m) s).conversation item := by
  intro items
  induction items with
  | nil => intro i s c hc; exact Or.inl hc
  | cons hd rest ih =>
    intro i s c hc
    rw [send_loop_from] at hc
    rcases ih (i + 1) (send_loop_step tp i hd s) c hc with
      hmem | ⟨m, item, hget, hidx, hdata⟩
    · obtain ⟨cs, hcs, hcs2⟩ := send_loop_step_calls tp i hd s
      rw [hcs] at hmem
      rcases List.mem_append.mp hmem with h1 | h2
      · exact Or.inl h1
      · right
        rw [hcs2] at h2
        have hci := dispatch_item_calls tp i s.conversation hd c h2
        refine ⟨0, hd, rfl, ?_, ?_⟩
        · rw [hci.1]; omega
        · exact hci.2
    · right
      refine ⟨m + 1, item, by simpa using hget, by omega, ?_⟩
      rw [show (hd :: rest).take (m + 1) = hd :: rest.take m from rfl]
      rw [send_loop_from]
      exact hdata

/-! ## Claim C7 (corrected) -/

/-- **C7 amended** (server-id threading during flush): if the item at index
`j` of the flushed sequence has kind `conversation` and its transport call
succeeds with a response carrying server id `sid`, then — until overwritten,
i.e. as long as no intervening conversation item's call succeeds with an id —
every later item of kind *other than* `conversation` is sent with its
`data.conversation` field set to `sid`.  (Conversation items themselves are
sent without the threaded field: see the counterexample.)  Stated over the
decomposition `pre ++ [itj] ++ mid ++ [itk] ++ post` of the flushed sequence,
with `j = pre.length` and `k = pre.length + 1 + mid.length`. -/
theorem server_id_threading (tp : Transport)
    (pre mid post : List TrackedItem) (itj itk : TrackedItem)
    (hj : itj.type = Kind.conversation)
    (hk : itk.type ≠ Kind.conversation)
    (hkmode : modeOk itk)
    (r : Response) (sid : String)
    (hr : tp.sendPayload pre.length "conversation"
      { itj.data with timestamp_field := some itj.timestamp } = Except.ok r)
    (hid : r.id = some sid)
    (hmid : ∀ m itm, mid.get? m = some itm → itm.type = Kind.conversation →
      ∀ r2, tp.sendPayload (pre.length + 1 + m) "conversation"
        { itm.data with timestamp_field := some itm.timestamp } = Except.ok r2 →
        r2.id = none) :
    (∀ c ∈ (send_loop tp (pre ++ itj :: mid ++ itk :: post)).calls,
      c.itemIndex = pre.length + 1 + mid.length →
      c.data.conversation = some (some sid)) ∧
    ∃ c ∈ (send_loop tp (pre ++ itj :: mid ++ itk :: post)).calls,
      c.itemIndex = pre.length + 1 + mid.length ∧
      c.data.conversation = some (some sid) := by
  have hsplit : pre ++ itj :: mid ++ itk :: post =
      (pre ++ itj :: mid) ++ itk :: post := by
    simp
  have hplen : (pre ++ itj :: mid).length = pre.length + 1 + mid.length := by
    simp
    omega
  have hs2conv : (send_loop_from tp 0 (pre ++ itj :: mid) {}).conversation =
      some sid := by
    rw [send_loop_from_append tp pre (itj :: mid) 0 {}]
    rw [send_loop_from]
    rw [send_loop_from_conv_preserved tp mid _ _ ?hmid2]
    case hmid2 =>
      intro m itm hm hty r2 hr2
      refine hmid m itm hm hty r2 ?_
      rw [show pre.length + 1 + m = 0 + pre.length + 1 + m from by omega]
      exact hr2
    rw [send_loop_step_conv_eq_dispatch]
    refine dispatch_item_conv_success tp _ _ itj r sid hj ?_ hid
    rw [prepared_data_of_conversation _ _ hj, Nat.zero_add]
    exact hr
  have hgetk : ((pre ++ itj :: mid) ++ itk :: post).get? (pre ++ itj :: mid).length =
      some itk := by
    rw [List.get?_eq_getElem?, List.getElem?_append_right (le_refl _)]
    simp
  constructor
  · intro c hc hcidx
    rw [hsplit] at hc
    rcases send_loop_from_calls_mem tp ((pre ++ itj :: mid) ++ itk :: post) 0 {} c hc
      with hmem | ⟨m, item, hget, hidx, hdata⟩
    · simp at hmem
    · have hmk : m = (pre ++ itj :: mid).length := by omega
      subst hmk
      rw [hgetk] at hget
      have hit : item = itk := Option.some.inj hget.symm
      subst hit
      rw [List.take_left] at hdata
      rw [hdata, prepared_data_conversation_field _ _ hk, hs2conv]
  · obtain ⟨cs, hcs, hcs2⟩ := send_loop_step_calls tp (0 + (pre ++ itj :: mid).length)
      itk (send_loop_from tp 0 (pre ++ itj :: mid) {})
    obtain ⟨tail, htail⟩ := send_loop_from_calls_extend tp post
      (0 + (pre ++ itj :: mid).length + 1)
      (send_loop_step tp (0 + (pre ++ itj :: mid).length) itk
        (send_loop_from tp 0 (pre ++ itj :: mid) {}))
    have hcallseq : (send_loop tp (pre ++ itj :: mid ++ itk :: post)).calls =
        (send_loop_from tp 0 (pre ++ itj :: mid) {}).calls ++ cs ++ tail := by
      rw [hsplit]
      show (send_loop_from tp 0 ((pre ++ itj :: mid) ++ itk :: post) {}).calls = _
      rw [send_loop_from_append tp (pre ++ itj :: mid) (itk :: post) 0 {},
        send_loop_from, htail, hcs]
    have hne : cs ≠ [] := by
      rw [hcs2]
      exact dispatch_item_calls_ne _ _ _ _ hkmode
    obtain ⟨c, hcmem⟩ := List.exists_mem_of_ne_nil cs hne
    have hci := dispatch_item_calls tp (0 + (pre ++ itj :: mid).length) _ itk c
      (hcs2 ▸ hcmem)
    refine ⟨c, ?_, ?_, ?_⟩
    · rw [hcallseq]
      simp [hcmem]
    · rw [hci.1]
      omega
    · rw [hci.2, prepared_data_conversation_field _ _ hk, hs2conv]

/-- **C7 counterexample**: with two conversation items flushed in sequence and
every transport call succeeding with a server id (`"srv1"` for the first), the
item at index 1 — an item at an index greater than the successful conversation
item's index 0 — is sent with *no* `data.conversation` key at all (the loop
only sets the field for non-conversation items), not with the captured id. -/
theorem server_id_threading_counterexample :
    okTransport.sendPayload 0 "conversation"
      (prepared_data none ⟨Kind.conversation, "t1", { conversation_id := some "c1" }⟩) =
      Except.ok { id := some "srv1", body := "ok" } ∧
    ∃ c, (send_loop okTransport two_conv_items).calls.get? 1 = some c ∧
      c.itemIndex = 1 ∧ c.data.conversation = none ∧
      c.data.conversation ≠ some (some "srv1") := by
  refine ⟨rfl, ⟨_, rfl, ?_, ?_, ?_⟩⟩ <;> decide

/-- Witness for the amended C7 at a concrete input: a conversation item
followed by a question item; the question item is sent with the threaded
server id. -/
theorem server_id_threading_witness :
    ∃ c ∈ (send_loop okTransport
      [⟨Kind.conversation, "t1", { conversation_id := some "c1" }⟩,
       ⟨Kind.question, "t2", { content := some "q" }⟩]).calls,
      c.itemIndex = 1 ∧ c.data.conversation = some (some "srv1") := by
  have h := (server_id_threading okTransport [] [] []
    ⟨Kind.conversation, "t1", { conversation_id := some "c1" }⟩
    ⟨Kind.question, "t2", { content := some "q" }⟩ rfl (by decide) (by decide)
    { id := some "srv1", body := "ok" } "srv1" rfl rfl
    (fun m itm hm => by simp at hm)).2
  simpa using h

/-! ## Claim C8 (corrected) -/

/-- **C8 counterexample**: an explicitly passed id that is the empty string is
*not* adopted — Python truthiness treats `""` like an absent argument, so the
already-configured id `"abc"` is returned and the configured id is unchanged. -/
theorem conversation_id_resolution_counterexample :
    (get_or_generate_conversation_id
      { conversation_id := some "abc", tracked_data := [], token_handler := none }
      (some "") zeroHex).1 = "abc" ∧
    (get_or_generate_conversation_id
      { conversation_id := some "abc", tracked_data := [], token_handler := none }
      (some "") zeroHex).2.conversation_id = some "abc" ∧
    ("abc" : String) ≠ "" := by
  refine ⟨?_, ?_, ?_⟩ <;> decide

/-- Python-truthiness falsy explicit arguments behave exactly like `none`. -/
theorem gog_falsy_explicit (st : TrackerState) (ex : Option String)
    (ds : Fin 12 → Fin 16) (hex : truthy ex = false) :
    get_or_generate_conversation_id st ex ds =
      get_or_generate_conversation_id st none ds := by
  unfold get_or_generate_conversation_id
  rw [hex]
  simp [truthy]

/-- **C8 amended** (conversation-id resolution): a *non-empty* explicit id is
adopted as the tracker's current id and used; otherwise a non-empty configured
id is reused unchanged; otherwise a fresh id of the form `"conv_"` followed by
12 lowercase-hex characters is generated and adopted (an explicitly passed
*empty* string is treated as absent, per Python truthiness).  In all cases the
returned id equals the tracker's current id after the call. -/
theorem conversation_id_resolution (st : TrackerState) (explicit : Option String)
    (ds : Fin 12 → Fin 16) :
    (get_or_generate_conversation_id st explicit ds).2.conversation_id =
      some (get_or_generate_conversation_id st explicit ds).1 ∧
    (∀ s, explicit = some s → s ≠ "" →
      get_or_generate_conversation_id st explicit ds =
        (s, { st with conversation_id := some s })) ∧
    ((explicit = none ∨ explicit = some "") →
      ∀ c, st.conversation_id = some c → c ≠ "" →
        get_or_generate_conversation_id st explicit ds = (c, st)) ∧
    ((explicit = none ∨ explicit = some "") →
      (st.conversation_id = none ∨ st.conversation_id = some "") →
      get_or_generate_conversation_id st explicit ds =
        (generate_conversation_id ds,
         { st with conversation_id := some (generate_conversation_id ds) })) ∧
    ∃ t : List Char, generate_conversation_id ds = "conv_" ++ String.mk t ∧
      t.length = 12 ∧ ∀ ch ∈ t, ch ∈ hexChars := by
  have hform : ∃ t : List Char, generate_conversation_id ds = "conv_" ++ String.mk t ∧
      t.length = 12 ∧ ∀ ch ∈ t, ch ∈ hexChars := by
    refine ⟨List.ofFn fun i : Fin 12 => hexChars.getD (ds i).val '0', rfl, by simp, ?_⟩
    intro ch hch
    rw [List.mem_ofFn] at hch
    obtain ⟨i, hi⟩ := hch
    rw [← hi]
    have hall : ∀ j : Fin 16, hexChars.getD j.val '0' ∈ hexChars := by decide
    exact hall (ds i)
  have hmain : (get_or_generate_conversation_id st explicit ds).2.conversation_id =
      some (get_or_generate_conversation_id st explicit ds).1 := by
    by_cases ht : truthy explicit = true
    · unfold get_or_generate_conversation_id
      rw [if_pos ht]
    · rw [gog_falsy_explicit st explicit ds (by simpa using ht)]
      exact gog_conversation_id st ds
  refine ⟨hmain, ?_, ?_, ?_, hform⟩
  · intro s hex hs
    subst hex
    unfold get_or_generate_conversation_id
    rw [if_pos (show truthy (some s) = true by simp [truthy, hs])]
    rfl
  · intro hex c hc hcne
    have hexf : truthy explicit = false := by
      rcases hex with rfl | rfl <;> simp [truthy]
    rw [gog_falsy_explicit st explicit ds hexf]
    exact gog_of_config st c ds hc hcne
  · intro hex hcfg
    have hexf : truthy explicit = false := by
      rcases hex with rfl | rfl <;> simp [truthy]
    rw [gog_falsy_explicit st explicit ds hexf]
    unfold get_or_generate_conversation_id
    have hcf : truthy st.conversation_id = false := by
      rcases hcfg with h | h <;> simp [truthy, h]
    rw [hcf]
    simp [truthy]

/-- Witness for the amended C8 at concrete inputs: a non-empty explicit id is
adopted; with no explicit and no configured id a fresh `conv_`-id is generated
and adopted. -/
theorem conversation_id_resolution_witness :
    get_or_generate_conversation_id
      { conversation_id := none, tracked_data := [], token_handler := none }
      (some "xyz") zeroHex =
      ("xyz", { conversation_id := some "xyz", tracked_data := [],
                token_handler := none }) ∧
    get_or_generate_conversation_id
      { conversation_id := none, tracked_data := [], token_handler := none }
      none zeroHex =
      ("conv_000000000000",
       { conversation_id := some "conv_000000000000", tracked_data := [],
         token_handler := none }) := by
  obtain ⟨-, h2, -, -, -⟩ := conversation_id_resolution
    { conversation_id := none, tracked_data := [], token_handler := none }
    (some "xyz") zeroHex
  obtain ⟨-, -, -, g4, -⟩ := conversation_id_resolution
    { conversation_id := none, tracked_data := [], token_handler := none }
    none zeroHex
  refine ⟨h2 "xyz" rfl (by decide), ?_⟩
  rw [g4 (Or.inl rfl) (Or.inl rfl)]
  decide

end AgentSight
